import Mathlib

/-!
Verification development for the window-frame reconciliation core of the
rift tiling window manager.

The definitions below are a shallow embedding of the Rust sources:
  - src/model/tx_store.rs          (WindowTxStore)
  - src/model/reactor.rs           (WindowState, DragState, ...)
  - src/actor/reactor/events/window.rs (WindowEventHandler and helpers)
Floating-point values are modelled as rationals.  Components of the
repository that are referenced by the sources above but whose own code is
not available (TransactionId, the geometry tolerance helpers, the drag
event handler, the constraint-probe starter, app-rule processing) are
modelled from the specification; each such definition carries a doc
comment starting with: Modelled from the spec.
-/

set_option maxHeartbeats 1000000

namespace Rift

/-- Mouse button state (src/sys/event.rs, mirrored from its use sites). -/
inductive MouseState where
  | up
  | down
deriving DecidableEq, Repr

/-- FrameChangeKind from src/model/reactor.rs. -/
inductive FrameChangeKind where
  | move
  | resize
deriving DecidableEq, Repr

/-- LayoutMode from src/common/config.rs, mirrored from its use site
(only the scrolling / non-scrolling distinction matters here). -/
inductive LayoutMode where
  | scrolling
  | traditional
deriving DecidableEq, Repr

/-- CGPoint with rational coordinates. -/
structure CGPoint where
  x : ℚ
  y : ℚ
deriving DecidableEq, Repr

/-- CGSize with rational dimensions. -/
structure CGSize where
  width : ℚ
  height : ℚ
deriving DecidableEq, Repr

/-- CGRect. -/
structure CGRect where
  origin : CGPoint
  size : CGSize
deriving DecidableEq, Repr

/-- An executable absolute value on the rationals. -/
def absQ (q : ℚ) : ℚ := if q < 0 then -q else q

theorem absQ_eq_abs (q : ℚ) : absQ q = |q| := by
  unfold absQ
  rcases lt_or_ge q 0 with h | h
  · simp [h, abs_of_neg h]
  · simp [not_lt.mpr h, abs_of_nonneg h]

/-- Modelled from the spec: `is_within` from src/sys/geometry.rs (absent
from the sources); spec section 4.4 defines the comparison as
`|observed − target| ≤ 0.1`, so `isWithin eps target x` holds when the
distance from `x` to `target` is at most `eps`. -/
def Rat.isWithin (x eps target : ℚ) : Bool :=
  absQ (x - target) ≤ eps

/-- Modelled from the spec: the tolerance used by `same_as` from
src/sys/geometry.rs (absent from the sources).  The spec only says
"within floating-point tolerance"; a fixed positive constant is used. -/
def sameTol : ℚ := 1

/-- Modelled from the spec: `same_as` on scalars — equality within the
floating-point tolerance. -/
def Rat.sameAs (a b : ℚ) : Bool :=
  absQ (a - b) ≤ sameTol

/-- Modelled from the spec: `same_as` on points, componentwise. -/
def CGPoint.sameAs (a b : CGPoint) : Bool :=
  Rat.sameAs a.x b.x && Rat.sameAs a.y b.y

/-- Modelled from the spec: `same_as` on sizes, componentwise. -/
def CGSize.sameAs (a b : CGSize) : Bool :=
  Rat.sameAs a.width b.width && Rat.sameAs a.height b.height

/-- Modelled from the spec: `same_as` on rects, componentwise. -/
def CGRect.sameAs (a b : CGRect) : Bool :=
  CGPoint.sameAs a.origin b.origin && CGSize.sameAs a.size b.size

/-- WindowServerId (src/sys/window_server.rs), an opaque numeric id. -/
abbrev WindowServerId := ℕ

/-- SpaceId (src/sys/screen.rs), an opaque numeric id. -/
abbrev SpaceId := ℕ

/-- VirtualWorkspaceId, an opaque numeric id. -/
abbrev WorkspaceId := ℕ

/-- WindowId from src/actor/app.rs: process id plus per-process index. -/
structure WindowId where
  pid : ℕ
  idx : ℕ
deriving DecidableEq, Repr

/-- Modelled from the spec: TransactionId
(src/actor/reactor/transaction_manager.rs is absent from the sources) —
"a totally ordered, strictly monotonically increasing value"; the default
value is the identity element and counts as no transaction issued yet. -/
abbrev TransactionId := ℕ

/-- Modelled from the spec: the default TransactionId. -/
def TransactionId.default : TransactionId := 0

/-- Modelled from the spec: `TransactionId::next`, producing the next
value in the strictly increasing sequence. -/
def TransactionId.next (t : TransactionId) : TransactionId := t + 1

/-! ### Association lists

The Rust sources use hash maps (`HashMap`, `DashMap`) keyed by window
ids.  They are embedded as association lists with unique-key insert,
lookup, in-place update and remove. -/

/-- Lookup in an association list. -/
def lookupA {α β : Type} [DecidableEq α] : List (α × β) → α → Option β
  | [], _ => none
  | (a, b) :: t, k => if a = k then some b else lookupA t k

/-- Insert (replace the first binding of the key, else append a new
binding at the front of the tail scan position). -/
def insertA {α β : Type} [DecidableEq α] : List (α × β) → α → β → List (α × β)
  | [], k, v => [(k, v)]
  | (a, b) :: t, k, v => if a = k then (k, v) :: t else (a, b) :: insertA t k v

/-- Remove the binding of the key (the sources' maps hold at most one
binding per key, so removal drops every pair with the key). -/
def removeA {α β : Type} [DecidableEq α] : List (α × β) → α → List (α × β)
  | [], _ => []
  | (a, b) :: t, k => if a = k then removeA t k else (a, b) :: removeA t k

/-- Update the value at a key in place (no-op when the key is absent). -/
def updateA {α β : Type} [DecidableEq α] (f : β → β) : List (α × β) → α → List (α × β)
  | [], _ => []
  | (a, b) :: t, k => if a = k then (a, f b) :: t else (a, b) :: updateA f t k

theorem lookupA_insertA_self {α β : Type} [DecidableEq α]
    (l : List (α × β)) (k : α) (v : β) : lookupA (insertA l k v) k = some v := by
  induction l with
  | nil => simp [insertA, lookupA]
  | cons h t ih =>
    obtain ⟨a, b⟩ := h
    by_cases hak : a = k <;> simp [insertA, lookupA, hak, ih]

theorem lookupA_insertA_ne {α β : Type} [DecidableEq α]
    (l : List (α × β)) (k k' : α) (v : β) (h : k ≠ k') :
    lookupA (insertA l k v) k' = lookupA l k' := by
  induction l with
  | nil => simp [insertA, lookupA, h]
  | cons hd t ih =>
    obtain ⟨a, b⟩ := hd
    by_cases hak : a = k
    · subst hak
      simp [insertA, lookupA, h]
    · by_cases hak' : a = k' <;> simp [insertA, lookupA, hak, hak', ih, Ne.symm h]

theorem lookupA_removeA_ne {α β : Type} [DecidableEq α]
    (l : List (α × β)) (k k' : α) (h : k ≠ k') :
    lookupA (removeA l k) k' = lookupA l k' := by
  induction l with
  | nil => simp [removeA]
  | cons hd t ih =>
    obtain ⟨a, b⟩ := hd
    by_cases hak : a = k
    · subst hak
      simp [removeA, lookupA, h, ih]
    · by_cases hak' : a = k' <;> simp [removeA, lookupA, hak, hak', ih, Ne.symm h]

theorem lookupA_removeA_self {α β : Type} [DecidableEq α]
    (l : List (α × β)) (k : α) : lookupA (removeA l k) k = none := by
  induction l with
  | nil => simp [removeA, lookupA]
  | cons hd t ih =>
    obtain ⟨a, b⟩ := hd
    by_cases hak : a = k <;> simp [removeA, lookupA, hak, ih]

theorem lookupA_updateA_self {α β : Type} [DecidableEq α]
    (f : β → β) (l : List (α × β)) (k : α) :
    lookupA (updateA f l k) k = (lookupA l k).map f := by
  induction l with
  | nil => simp [updateA, lookupA]
  | cons hd t ih =>
    obtain ⟨a, b⟩ := hd
    by_cases hak : a = k <;> simp [updateA, lookupA, hak, ih]

theorem lookupA_updateA_ne {α β : Type} [DecidableEq α]
    (f : β → β) (l : List (α × β)) (k k' : α) (h : k ≠ k') :
    lookupA (updateA f l k) k' = lookupA l k' := by
  induction l with
  | nil => simp [updateA, lookupA]
  | cons hd t ih =>
    obtain ⟨a, b⟩ := hd
    by_cases hak : a = k
    · subst hak
      simp [updateA, lookupA, h, ih]
    · by_cases hak' : a = k' <;> simp [updateA, lookupA, hak, hak', ih, Ne.symm h]

theorem removeA_absent {α β : Type} [DecidableEq α]
    (l : List (α × β)) (k : α) (h : lookupA l k = none) : removeA l k = l := by
  induction l with
  | nil => simp [removeA]
  | cons hd t ih =>
    obtain ⟨a, b⟩ := hd
    by_cases hak : a = k
    · subst hak
      simp [lookupA] at h
    · simp [lookupA, hak] at h
      simp [removeA, hak, ih h]

/-! ### WindowTxStore (src/model/tx_store.rs) -/

/-- TxRecord from src/model/tx_store.rs. -/
structure TxRecord where
  txid : TransactionId
  target : Option CGRect
deriving DecidableEq, Repr

/-- The default TxRecord (`#[derive(Default)]`). -/
def TxRecord.default : TxRecord :=
  { txid := TransactionId.default, target := none }

/-- WindowTxStore from src/model/tx_store.rs: a map from window server
ids to their last known transaction record (the concurrent map is
embedded as a pure association list; every operation in the source is an
atomic per-key read-modify-write). -/
abbrev WindowTxStore := List (WindowServerId × TxRecord)

/-- `WindowTxStore::insert`. -/
def WindowTxStore.insert (s : WindowTxStore) (id : WindowServerId)
    (txid : TransactionId) (target : CGRect) : WindowTxStore :=
  insertA s id { txid := txid, target := some target }

/-- `WindowTxStore::get`. -/
def WindowTxStore.get (s : WindowTxStore) (id : WindowServerId) : Option TxRecord :=
  lookupA s id

/-- `WindowTxStore::clear_target`. -/
def WindowTxStore.clearTarget (s : WindowTxStore) (id : WindowServerId) : WindowTxStore :=
  updateA (fun r => { r with target := none }) s id

/-- `WindowTxStore::remove`. -/
def WindowTxStore.remove (s : WindowTxStore) (id : WindowServerId) : WindowTxStore :=
  removeA s id

/-- `WindowTxStore::next_txid`: advance the per-id counter (creating the
record from the default when absent), clear the target, and return the
new id together with the updated store. -/
def WindowTxStore.nextTxid (s : WindowTxStore) (id : WindowServerId) :
    TransactionId × WindowTxStore :=
  match lookupA s id with
  | some record =>
    let newTxid := record.txid.next
    (newTxid, insertA s id { txid := newTxid, target := none })
  | none =>
    let txid := TransactionId.default.next
    (txid, insertA s id { txid := txid, target := none })

/-- `WindowTxStore::set_last_txid`. -/
def WindowTxStore.setLastTxid (s : WindowTxStore) (id : WindowServerId)
    (txid : TransactionId) : WindowTxStore :=
  insertA s id { txid := txid, target := none }

/-- `WindowTxStore::last_txid`. -/
def WindowTxStore.lastTxid (s : WindowTxStore) (id : WindowServerId) : TransactionId :=
  ((s.get id).map TxRecord.txid).getD TransactionId.default

/-! ### Constraint inference (src/actor/reactor/events/window.rs) -/

/-- WindowConstraint from src/layout_engine.rs. -/
structure WindowConstraint where
  max_w : Option ℚ
  max_h : Option ℚ
deriving DecidableEq, Repr

/-- `infer_constraint_from_target` from
src/actor/reactor/events/window.rs lines 580-598. -/
def inferConstraintFromTarget (new_frame target : CGRect) : WindowConstraint :=
  let max_w :=
    if Rat.isWithin new_frame.size.width (1/10) target.size.width then
      none
    else if new_frame.size.width < target.size.width then
      some new_frame.size.width
    else
      none
  let max_h :=
    if Rat.isWithin new_frame.size.height (1/10) target.size.height then
      none
    else if new_frame.size.height < target.size.height then
      some new_frame.size.height
    else
      none
  { max_w := max_w, max_h := max_h }

/-- `merge_axis` inside `merge_constraints`
(src/actor/reactor/events/window.rs lines 604-611). -/
def mergeAxis (existing inferred : Option ℚ) : Option ℚ :=
  match existing, inferred with
  | some a, some b => some (min a b)
  | some a, none => some a
  | none, some b => some b
  | none, none => none

/-- `merge_constraints` from src/actor/reactor/events/window.rs
lines 600-621. -/
def mergeConstraints (existing : Option WindowConstraint)
    (inferred : WindowConstraint) : WindowConstraint :=
  match existing with
  | some e =>
    { max_w := mergeAxis e.max_w inferred.max_w
      max_h := mergeAxis e.max_h inferred.max_h }
  | none => inferred

/-! ### Reactor state (src/model/reactor.rs and the reactor aggregate)

The `Reactor` aggregate itself lives in src/actor/reactor/mod.rs, which
is absent from the sources; its fields are reconstructed from their use
sites in src/actor/reactor/events/window.rs and from spec sections 2-4.
The virtual-workspace assignment table and the drag bookkeeping fields
(`lastTargetMem`) belong to absent components and are modelled from the
spec. -/

/-- The part of WindowInfo (src/sys/app.rs) read by the handlers. -/
structure WindowInfo where
  sys_id : Option WindowServerId
  is_minimized : Bool
  is_standard : Bool
  is_root : Bool
deriving DecidableEq, Repr

/-- WindowState from src/model/reactor.rs lines 154-164. -/
structure WindowState where
  info : WindowInfo
  frame_monotonic : CGRect
  is_manageable : Bool
  ignore_app_rule : Bool
deriving DecidableEq, Repr

/-- `WindowState::is_effectively_manageable` (src/model/reactor.rs). -/
def WindowState.isEffectivelyManageable (w : WindowState) : Bool :=
  w.is_manageable && !w.ignore_app_rule

/-- Modelled from the spec: ConstraintProbe (section 3) —
`{ txid, target }`, keyed by WindowId in the registry. -/
structure ConstraintProbe where
  txid : TransactionId
  target : CGRect
deriving DecidableEq, Repr

/-- DragSession from src/model/reactor.rs lines 84-91. -/
structure DragSession where
  window : WindowId
  last_frame : CGRect
  origin_space : Option SpaceId
  settled_space : Option SpaceId
  layout_dirty : Bool
deriving DecidableEq, Repr

/-- DragState from src/model/reactor.rs lines 93-103. -/
inductive DragState where
  | inactive
  | active (session : DragSession)
  | pendingSwap (session : DragSession) (target : WindowId)
deriving DecidableEq, Repr

/-- The layout events emitted by the window handlers
(src/layout_engine/engine.rs is absent; the variants are the ones
constructed in src/actor/reactor/events/window.rs). -/
inductive LayoutEvent where
  | windowRemoved (wid : WindowId)
  | windowRemovedPreserveFloating (wid : WindowId)
  | windowAdded (space : SpaceId) (wid : WindowId)
  | windowResized (wid : WindowId) (old_frame new_frame : CGRect)
      (screens : List (SpaceId × CGRect × ℕ))
  | windowFocused (space : SpaceId) (wid : WindowId)
deriving DecidableEq, Repr

/-- A screen as read in the handlers: optional space, frame,
display uuid. -/
structure Screen where
  space : Option SpaceId
  frame : CGRect
  uuid : ℕ
deriving DecidableEq, Repr

/-- The reactor state mutated by the window event handlers. -/
structure Reactor where
  windows : List (WindowId × WindowState)
  windowIds : List (WindowServerId × WindowId)
  windowServerInfo : List WindowServerId
  visibleWindows : List WindowServerId
  txStore : WindowTxStore
  constraintProbes : List (WindowId × ConstraintProbe)
  constraints : List (WindowId × WindowConstraint)
  assignments : List ((SpaceId × WindowId) × WorkspaceId)
  dragState : DragState
  lastTargetMem : Option WindowId
  skipLayout : Option WindowId
deriving DecidableEq, Repr

/-- The observable effects of one event-processing step: layout events
sent to the layout engine, consolidated layout-update requests, and
committed drag swaps. -/
structure Output where
  events : List LayoutEvent
  layoutUpdates : ℕ
  swaps : List (WindowId × WindowId)
deriving DecidableEq, Repr

/-- The empty output. -/
def Output.empty : Output := { events := [], layoutUpdates := 0, swaps := [] }

/-- Output concatenation. -/
def Output.append (a b : Output) : Output :=
  { events := a.events ++ b.events
    layoutUpdates := a.layoutUpdates + b.layoutUpdates
    swaps := a.swaps ++ b.swaps }

/-- A single layout event as an output. -/
def Output.event (e : LayoutEvent) : Output :=
  { events := [e], layoutUpdates := 0, swaps := [] }

/-- The read-only collaborators consulted by the handlers (spec section
6): the placement oracle, screen configuration, pointer query, and the
parts of the layout engine and app manager the handlers only read. -/
structure Env where
  missionControlActive : Bool
  changingScreens : List WindowServerId
  mouseState : Option MouseState
  bestSpace : CGRect → Option WindowServerId → Option SpaceId
  isSpaceActive : SpaceId → Bool
  workspaceCommandSpace : Option SpaceId
  screens : List Screen
  activeLayoutModeAt : SpaceId → LayoutMode
  isWindowFloating : WindowId → Bool
  activeWorkspace : SpaceId → Option WorkspaceId
  appKnown : ℕ → Bool
  swapTarget : WindowId → CGRect → Option WindowId
  probeTarget : WindowId → SpaceId → Option CGRect
  computeManageability : Option WindowServerId → Bool → Bool → Bool → Bool

/-- The screens payload built for `LayoutEvent::WindowResized`
(src/actor/reactor/events/window.rs lines 319-327). -/
def screensPayload (env : Env) : List (SpaceId × CGRect × ℕ) :=
  env.screens.filterMap (fun sc => sc.space.map (fun sp => (sp, sc.frame, sc.uuid)))

/-- Overwrite a window's `frame_monotonic`
(`window.frame_monotonic = new_frame` at the handlers' write sites). -/
def Reactor.setFrame (s : Reactor) (wid : WindowId) (f : CGRect) : Reactor :=
  { s with windows := updateA (fun w => { w with frame_monotonic := f }) s.windows wid }

/-- The write performed by `handle_window_minimized`: set
`info.is_minimized = true` and `is_manageable = false`. -/
def Reactor.markMinimized (s : Reactor) (wid : WindowId) : Reactor :=
  { s with windows :=
      updateA (fun w => { w with info := { w.info with is_minimized := true }, is_manageable := false }) s.windows wid }

/-- Set `info.is_minimized = false` (handle_window_deminiaturized). -/
def Reactor.markDeminiaturized (s : Reactor) (wid : WindowId) : Reactor :=
  { s with windows :=
      updateA (fun w => { w with info := { w.info with is_minimized := false } }) s.windows wid }

/-- Set `is_manageable` (handle_window_deminiaturized). -/
def Reactor.setManageable (s : Reactor) (wid : WindowId) (b : Bool) : Reactor :=
  { s with windows := updateA (fun w => { w with is_manageable := b }) s.windows wid }

/-- Modelled from the spec: `DragManager::dragged` (the drag manager is
absent from the sources) — the window of the live drag session, if
any. -/
def Reactor.dragged (s : Reactor) : Option WindowId :=
  match s.dragState with
  | DragState.active sess => some sess.window
  | DragState.pendingSwap sess _ => some sess.window
  | DragState.inactive => none

/-- Modelled from the spec: `Reactor::is_in_drag` — a drag session is
live (Active or PendingSwap). -/
def Reactor.isInDrag (s : Reactor) : Bool :=
  match s.dragState with
  | DragState.inactive => false
  | _ => true

/-- `active_space_for_window` from src/actor/reactor/events/window.rs
lines 535-552. -/
def activeSpaceForWindow (env : Env) (frame : CGRect)
    (serverId : Option WindowServerId) : Option SpaceId :=
  match (env.bestSpace frame serverId).filter (fun sp => env.isSpaceActive sp) with
  | some sp => some sp
  | none => if serverId = none then env.workspaceCommandSpace else none

/-- Modelled from the spec: `Reactor::maybe_start_constraint_probe`
(absent from the sources).  Spec section 4.3: starting a probe issues a
transaction via the TransactionStore for the window's external id and
records the probe (at most one per window); probes exist only to
discover unknown size limits, so nothing is started when a constraint is
already stored, when the window has no external id, or when the oracle
supplies no probe target frame. -/
def maybeStartConstraintProbe (env : Env) (s : Reactor) (wid : WindowId)
    (space : SpaceId) : Bool × Reactor :=
  if (lookupA s.constraints wid).isSome then (false, s)
  else
    match lookupA s.windows wid with
    | none => (false, s)
    | some w =>
      match w.info.sys_id with
      | none => (false, s)
      | some wsid =>
        match env.probeTarget wid space with
        | none => (false, s)
        | some tgt =>
          let r := s.txStore.nextTxid wsid
          (true,
            { s with
              txStore := r.2
              constraintProbes :=
                insertA s.constraintProbes wid { txid := r.1, target := tgt } })

/-- `maybe_dispatch_window_added_in_space` from
src/actor/reactor/events/window.rs lines 554-567. -/
def maybeDispatchWindowAddedInSpace (env : Env) (s : Reactor) (wid : WindowId)
    (space : SpaceId) : Reactor × Output :=
  let shouldDispatch :=
    ((lookupA s.windows wid).map WindowState.isEffectivelyManageable).getD false
  if shouldDispatch then
    let r := maybeStartConstraintProbe env s wid space
    if r.1 then (r.2, Output.empty)
    else (r.2, Output.event (LayoutEvent.windowAdded space wid))
  else (s, Output.empty)

/-- Modelled from the spec: `Reactor::process_windows_for_app_rules`
(absent from the sources).  Spec section 4.4 step 2 describes its effect
at probe resolution as re-evaluating placement for the window — it may
now need to be announced to the layout component for the first time —
so it is modelled as the placement re-evaluation used by the other
branch of the probe-resolution code. -/
def processWindowsForAppRules (env : Env) (s : Reactor) (wid : WindowId) :
    Reactor × Output :=
  match lookupA s.windows wid with
  | none => (s, Output.empty)
  | some w =>
    match activeSpaceForWindow env w.frame_monotonic w.info.sys_id with
    | some space => maybeDispatchWindowAddedInSpace env s wid space
    | none => (s, Output.empty)

/-- Modelled from the spec: `Reactor::ensure_active_drag` (drag handler
absent from the sources).  Spec section 4.5, Inactive to Active: on the
first mouse-down frame change the session is created with the window's
pre-change frame as `last_frame`, the current placement as
`origin_space`, `settled_space = None` and `layout_dirty = false`; per
the spec section 8 scenario, entering a drag leaves no pending
transaction for the window.  A live session is left untouched. -/
def ensureActiveDrag (env : Env) (s : Reactor) (wid : WindowId)
    (oldFrame : CGRect) : Reactor :=
  match s.dragState with
  | DragState.inactive =>
    let sysId := (lookupA s.windows wid).bind (fun w => w.info.sys_id)
    let s1 :=
      match sysId with
      | some wsid => { s with txStore := s.txStore.remove wsid }
      | none => s
    { s1 with
      dragState := DragState.active
        { window := wid, last_frame := oldFrame
          origin_space := env.bestSpace oldFrame sysId
          settled_space := none, layout_dirty := false } }
  | _ => s

/-- Modelled from the spec: `Reactor::update_active_drag` (absent from
the sources).  Spec section 4.5 Active self-loop: subsequent frame
updates update `last_frame` of the live session for the dragged
window. -/
def updateActiveDrag (s : Reactor) (wid : WindowId) (newFrame : CGRect) : Reactor :=
  match s.dragState with
  | DragState.active sess =>
    if sess.window = wid then
      { s with dragState := DragState.active { sess with last_frame := newFrame } }
    else s
  | DragState.pendingSwap sess t =>
    if sess.window = wid then
      { s with dragState := DragState.pendingSwap { sess with last_frame := newFrame } t }
    else s
  | DragState.inactive => s

/-- Modelled from the spec: `Reactor::maybe_swap_on_drag` (absent from
the sources).  Spec section 4.5: during a move, settling over another
manageable window's region transitions Active to PendingSwap with that
window as target; moving away from the target's region transitions
PendingSwap back to Active.  The region test is the oracle
`Env.swapTarget`. -/
def maybeSwapOnDrag (env : Env) (s : Reactor) (wid : WindowId)
    (newFrame : CGRect) : Reactor :=
  match env.swapTarget wid newFrame with
  | some t =>
    match s.dragState with
    | DragState.active sess =>
      if sess.window = wid then
        { s with dragState := DragState.pendingSwap sess t, lastTargetMem := some t }
      else s
    | DragState.pendingSwap sess _ =>
      if sess.window = wid then
        { s with dragState := DragState.pendingSwap sess t, lastTargetMem := some t }
      else s
    | DragState.inactive => s
  | none =>
    match s.dragState with
    | DragState.pendingSwap sess _ =>
      if sess.window = wid then { s with dragState := DragState.active sess } else s
    | _ => s

/-- Modelled from the spec: `DragEventHandler::handle_mouse_up` (drag
handler absent from the sources).  Spec section 4.5 mouse-up: if
PendingSwap, commit the swap of the dragged window and the target, then
finalize; either way issue exactly one consolidated layout update and
reset to Inactive (clearing the drag bookkeeping). -/
def dragHandleMouseUp (s : Reactor) : Reactor × Output :=
  let cleared := { s with
    dragState := DragState.inactive, skipLayout := none, lastTargetMem := none }
  match s.dragState with
  | DragState.pendingSwap sess t =>
    (cleared, { events := [], layoutUpdates := 1, swaps := [(sess.window, t)] })
  | _ =>
    (cleared, { events := [], layoutUpdates := 1, swaps := [] })

/-- `handle_mouse_up_if_needed` from src/actor/reactor/events/window.rs
lines 569-578. -/
def handleMouseUpIfNeeded (s : Reactor) (mouseState : Option MouseState) :
    Reactor × Output :=
  if mouseState == some MouseState.up && (s.isInDrag || s.skipLayout.isSome) then
    dragHandleMouseUp s
  else (s, Output.empty)

/-! ### handle_window_frame_changed
(src/actor/reactor/events/window.rs lines 179-501)

The closure body is split along the source's own structure: the
probe-resolution branch (lines 217-244), the self-triggered branch
(lines 271-358) and the genuine-external branch (lines 377-497).  The
transaction-manager wrappers used there (`get_target_frame`,
`get_last_sent_txid`, `remove_for_window`) live in the absent
transaction_manager module; per the spec section 4.1 contract they are
the WindowTxStore operations `target`, `last_txid` and `remove`. -/

/-- The probe-resolution branch, lines 217-244. -/
def probeResolve (env : Env) (s : Reactor) (wid : WindowId) (newFrame : CGRect)
    (serverId : Option WindowServerId) (probe : ConstraintProbe) :
    Reactor × Output × Bool :=
  let s1 := s.setFrame wid newFrame
  let s2 :=
    match serverId with
    | some wsid => { s1 with txStore := s1.txStore.remove wsid }
    | none => s1
  let inferred := inferConstraintFromTarget newFrame probe.target
  let existing := lookupA s2.constraints wid
  let constraint := mergeConstraints existing inferred
  let s3 := { s2 with constraints := insertA s2.constraints wid constraint }
  let s4 := { s3 with constraintProbes := removeA s3.constraintProbes wid }
  if env.appKnown wid.pid then
    let r := processWindowsForAppRules env s4 wid
    (r.1, r.2, true)
  else
    match activeSpaceForWindow env newFrame serverId with
    | some space =>
      let r := maybeDispatchWindowAddedInSpace env s4 wid space
      (r.1, r.2, true)
    | none => (s4, Output.empty, true)

/-- The self-triggered reconciliation branch, lines 271-358. -/
def triggeredBranch (env : Env) (s : Reactor) (wid : WindowId) (newFrame : CGRect)
    (changeKind : FrameChangeKind) (serverId : Option WindowServerId)
    (pendingTarget : Option (WindowServerId × CGRect)) : Reactor × Output × Bool :=
  match lookupA s.windows wid with
  | none => (s, Output.empty, false)
  | some window =>
    match pendingTarget with
    | some (wsid, target) =>
      if CGRect.sameAs newFrame target then
        let s1 :=
          if !CGRect.sameAs window.frame_monotonic newFrame then s.setFrame wid newFrame
          else s
        let s2 := { s1 with txStore := s1.txStore.remove wsid }
        (s2, Output.empty, false)
      else if changeKind == FrameChangeKind.resize
          && !CGSize.sameAs newFrame.size target.size then
        let s1 := s.setFrame wid newFrame
        let s2 := { s1 with txStore := s1.txStore.remove wsid }
        let originMatchesTarget := CGPoint.sameAs newFrame.origin target.origin
        if !originMatchesTarget then
          (s2, Output.empty, false)
        else
          let inferred := inferConstraintFromTarget newFrame target
          let existingConstraint := lookupA s2.constraints wid
          let constraint := mergeConstraints existingConstraint inferred
          let s3 := { s2 with constraints := insertA s2.constraints wid constraint }
          if existingConstraint == some constraint then
            (s3, Output.empty, false)
          else if (activeSpaceForWindow env newFrame serverId).isSome then
            (s3,
             Output.event
               (LayoutEvent.windowResized wid target newFrame (screensPayload env)),
             true)
          else (s3, Output.empty, false)
      else (s, Output.empty, false)
    | none =>
      if !CGRect.sameAs window.frame_monotonic newFrame then
        let s1 := s.setFrame wid newFrame
        let s2 :=
          match window.info.sys_id with
          | some wsid => { s1 with txStore := s1.txStore.remove wsid }
          | none => s1
        (s2, Output.empty, false)
      else (s, Output.empty, false)

/-- The genuine-external branch, lines 377-497. -/
def genuineExternal (env : Env) (s : Reactor) (wid : WindowId)
    (newFrame oldFrame : CGRect) (serverId : Option WindowServerId)
    (mouseEff : Option MouseState) : Reactor × Output × Bool :=
  let oldSpace := env.bestSpace oldFrame serverId
  let newSpace := env.bestSpace newFrame serverId
  let oldActive := (oldSpace.map env.isSpaceActive).getD false
  let newActive := (newSpace.map env.isSpaceActive).getD false
  if !oldActive && !newActive then (s, Output.empty, false)
  else
    match lookupA s.windows wid with
    | none => (s, Output.empty, false)
    | some window =>
      if CGRect.sameAs window.frame_monotonic newFrame then (s, Output.empty, false)
      else
        let s1 := s.setFrame wid newFrame
        let dragging := mouseEff == some MouseState.down || s1.isInDrag
        let s2 := if !dragging then { s1 with skipLayout := some wid } else s1
        if dragging then
          let s3 := ensureActiveDrag env s2 wid oldFrame
          let s4 := updateActiveDrag s3 wid newFrame
          let isResize := !CGSize.sameAs oldFrame.size newFrame.size
          if isResize then
            if (activeSpaceForWindow env newFrame serverId).isSome then
              (s4,
               Output.event
                 (LayoutEvent.windowResized wid oldFrame newFrame (screensPayload env)),
               true)
            else (s4, Output.empty, false)
          else (maybeSwapOnDrag env s4 wid newFrame, Output.empty, false)
        else
          if oldSpace ≠ newSpace then
            let keepAssignedForScrolling :=
              match oldSpace with
              | some sp =>
                env.activeLayoutModeAt sp == LayoutMode.scrolling
                  && !env.isWindowFloating wid
                  && (lookupA s2.assignments (sp, wid)).isSome
              | none => false
            if keepAssignedForScrolling then (s2, Output.empty, false)
            else
              let o1 := Output.event (LayoutEvent.windowRemovedPreserveFloating wid)
              let r :=
                match newSpace with
                | some space =>
                  if env.isSpaceActive space then
                    let s3 :=
                      match env.activeWorkspace space with
                      | some ws =>
                        { s2 with assignments := insertA s2.assignments (space, wid) ws }
                      | none => s2
                    maybeDispatchWindowAddedInSpace env s3 wid space
                  else (s2, Output.empty)
                | none => (s2, Output.empty)
              (r.1,
               Output.append (Output.append o1 r.2)
                 { events := [], layoutUpdates := 1, swaps := [] },
               false)
          else if !CGSize.sameAs oldFrame.size newFrame.size then
            match oldSpace with
            | some space =>
              if env.isSpaceActive space then
                (s2,
                 Output.event
                   (LayoutEvent.windowResized wid oldFrame newFrame (screensPayload env)),
                 true)
              else (s2, Output.empty, false)
            | none => (s2, Output.empty, false)
          else (s2, Output.empty, false)

/-- The tail of the closure body once the probe-resolution check has
fallen through (lines 246-497): pending/last-sent computation, drag
override, stale-echo drop, self-triggered branch, requested resync, and
the genuine-external branch. -/
def afterProbe (env : Env) (s : Reactor) (wid : WindowId) (newFrame : CGRect)
    (lastSeen : Option TransactionId) (requested : Bool)
    (changeKind : FrameChangeKind) (mouseEff : Option MouseState)
    (serverId : Option WindowServerId) (oldFrame : CGRect) :
    Reactor × Output × Bool :=
  let pendingTarget :=
    serverId.bind (fun wsid =>
      (s.txStore.get wsid).bind (fun r => r.target.map (fun t => (wsid, t))))
  let lastSentTxid :=
    ((serverId.map (fun wsid => s.txStore.lastTxid wsid)).getD
      TransactionId.default)
  let hasPending0 := pendingTarget.isSome
  let triggered0 := hasPending0 && (lastSeen == some lastSentTxid)
  let overrideDrag := (mouseEff == some MouseState.down) && triggered0
  let s1 :=
    if overrideDrag then
      match pendingTarget with
      | some (wsid, _) => { s with txStore := s.txStore.remove wsid }
      | none => s
    else s
  let triggered := triggered0 && !overrideDrag
  let hasPending := hasPending0 && !overrideDrag
  let staleMismatch :=
    match lastSeen with
    | some seen => seen != lastSentTxid
    | none => false
  if hasPending && staleMismatch then (s1, Output.empty, false)
  else if triggered then
    triggeredBranch env s1 wid newFrame changeKind serverId pendingTarget
  else if requested then
    let s2 :=
      match lookupA s1.windows wid with
      | some w =>
        if !CGRect.sameAs w.frame_monotonic newFrame then s1.setFrame wid newFrame
        else s1
      | none => s1
    let s3 :=
      match serverId with
      | some wsid => { s2 with txStore := s2.txStore.remove wsid }
      | none => s2
    (s3, Output.empty, false)
  else
    genuineExternal env s1 wid newFrame oldFrame serverId mouseEff

/-- The closure body of `handle_window_frame_changed`, lines 199-498. -/
def frameChangedCore (env : Env) (s : Reactor) (wid : WindowId) (newFrame : CGRect)
    (lastSeen : Option TransactionId) (requested : Bool)
    (changeKind : FrameChangeKind) (mouseEff : Option MouseState) :
    Reactor × Output × Bool :=
  match lookupA s.windows wid with
  | none => (s, Output.empty, false)
  | some window0 =>
    let serverId := window0.info.sys_id
    let oldFrame := window0.frame_monotonic
    if env.missionControlActive
        || (match serverId with
            | some wsid => env.changingScreens.contains wsid
            | none => false) then
      (s, Output.empty, false)
    else
      let probeHit :=
        match lookupA s.constraintProbes wid, lastSeen with
        | some probe, some seen => if seen = probe.txid then some probe else none
        | _, _ => none
      match probeHit with
      | some probe => probeResolve env s wid newFrame serverId probe
      | none =>
        afterProbe env s wid newFrame lastSeen requested changeKind mouseEff
          serverId oldFrame

/-- The effective mouse state (line 198):
`mouse_state.or_else(get_mouse_state)`. -/
def mouseEffective (env : Env) (mouseState : Option MouseState) : Option MouseState :=
  match mouseState with
  | some m => some m
  | none => env.mouseState

/-- `handle_window_frame_changed` from src/actor/reactor/events/window.rs
lines 179-501: the closure body followed by `handle_mouse_up_if_needed`
on the effective mouse state. -/
def handleWindowFrameChanged (env : Env) (s : Reactor) (wid : WindowId)
    (newFrame : CGRect) (lastSeen : Option TransactionId) (requested : Bool)
    (changeKind : FrameChangeKind) (mouseState : Option MouseState) :
    Reactor × Output × Bool :=
  let mouseEff := mouseEffective env mouseState
  let r := frameChangedCore env s wid newFrame lastSeen requested changeKind mouseEff
  let t := handleMouseUpIfNeeded r.1 mouseEff
  (t.1, Output.append r.2.1 t.2, r.2.2)

/-- The drag-session teardown performed by `handle_window_destroyed`
(src/actor/reactor/events/window.rs lines 95-116): clear a pending swap
whose participant was destroyed, reset the drag bookkeeping when the
destroyed window is the dragged window or the remembered swap target,
and drop the skip-layout marker. -/
def dragTeardownOnDestroy (s : Reactor) (wid : WindowId) : Reactor :=
  let s3 :=
    match s.dragState with
    | DragState.pendingSwap sess target =>
      if sess.window = wid ∨ target = wid then
        { s with dragState := DragState.inactive }
      else s
    | _ => s
  let draggedWindow := s3.dragged
  let lastTarget := s3.lastTargetMem
  let s4 :=
    if draggedWindow = some wid ∨ lastTarget = some wid then
      let s4a := { s3 with lastTargetMem := none }
      if draggedWindow = some wid then { s4a with dragState := DragState.inactive }
      else s4a
    else s3
  if s4.skipLayout = some wid then { s4 with skipLayout := none } else s4

/-- `handle_window_destroyed` from src/actor/reactor/events/window.rs
lines 78-118. -/
def handleWindowDestroyed (s : Reactor) (wid : WindowId) : Reactor × Output × Bool :=
  match lookupA s.windows wid with
  | none => (s, Output.empty, false)
  | some window =>
    let s1 :=
      match window.info.sys_id with
      | some wsid =>
        { s with
          txStore := s.txStore.remove wsid
          windowIds := removeA s.windowIds wsid
          windowServerInfo := s.windowServerInfo.erase wsid
          visibleWindows := s.visibleWindows.erase wsid }
      | none => s
    let s2 := { s1 with
      windows := removeA s1.windows wid
      constraintProbes := removeA s1.constraintProbes wid }
    let o := Output.event (LayoutEvent.windowRemoved wid)
    (dragTeardownOnDestroy s2 wid, o, true)

/-- `handle_window_minimized` from src/actor/reactor/events/window.rs
lines 120-135. -/
def handleWindowMinimized (s : Reactor) (wid : WindowId) : Reactor × Output :=
  match lookupA s.windows wid with
  | none => (s, Output.empty)
  | some window =>
    if window.info.is_minimized then (s, Output.empty)
    else
      let s1 := s.markMinimized wid
      let s2 :=
        match window.info.sys_id with
        | some wsid => { s1 with visibleWindows := s1.visibleWindows.erase wsid }
        | none => s1
      let s3 := { s2 with constraintProbes := removeA s2.constraintProbes wid }
      (s3, Output.event (LayoutEvent.windowRemoved wid))

/-- `handle_window_deminiaturized` from src/actor/reactor/events/window.rs
lines 137-177. -/
def handleWindowDeminiaturized (env : Env) (s : Reactor) (wid : WindowId) :
    Reactor × Output :=
  match lookupA s.windows wid with
  | none => (s, Output.empty)
  | some window =>
    if !window.info.is_minimized then (s, Output.empty)
    else
      let frame := window.frame_monotonic
      let serverId := window.info.sys_id
      let s1 := s.markDeminiaturized wid
      let isManageable :=
        env.computeManageability serverId false window.info.is_standard
          window.info.is_root
      let s2 := s1.setManageable wid isManageable
      if isManageable then
        match activeSpaceForWindow env frame serverId with
        | some space => maybeDispatchWindowAddedInSpace env s2 wid space
        | none => (s2, Output.empty)
      else (s2, Output.empty)

/-! ### Interleaved store operations, for the transaction-id
monotonicity statement (claim C2) -/

/-- A WindowTxStore operation interleaved, relative to a fixed id `i`,
between two `next_txid` calls on `i`: either one of the operations on
`i` that the reactor issues between transactions (`clear_target`, and
`insert` / `set_last_txid` passing the currently stored last txid, as at
src/actor/reactor/events/window.rs lines 47-53), or an arbitrary
operation on some other id. -/
inductive TxOp where
  | clearTargetCur
  | insertCur (target : CGRect)
  | setLastCur
  | otherNext (j : WindowServerId)
  | otherInsert (j : WindowServerId) (tx : TransactionId) (target : CGRect)
  | otherClear (j : WindowServerId)
  | otherSetLast (j : WindowServerId) (tx : TransactionId)
  | otherRemove (j : WindowServerId)
deriving DecidableEq, Repr

/-- The operation is safe for id `i`: the operations on other ids really
concern other ids. -/
def TxOp.safeFor (i : WindowServerId) : TxOp → Prop
  | TxOp.clearTargetCur => True
  | TxOp.insertCur _ => True
  | TxOp.setLastCur => True
  | TxOp.otherNext j => j ≠ i
  | TxOp.otherInsert j _ _ => j ≠ i
  | TxOp.otherClear j => j ≠ i
  | TxOp.otherSetLast j _ => j ≠ i
  | TxOp.otherRemove j => j ≠ i

/-- Apply one interleaved operation to the store. -/
def TxOp.apply (i : WindowServerId) (s : WindowTxStore) : TxOp → WindowTxStore
  | TxOp.clearTargetCur => s.clearTarget i
  | TxOp.insertCur tgt => s.insert i (s.lastTxid i) tgt
  | TxOp.setLastCur => s.setLastTxid i (s.lastTxid i)
  | TxOp.otherNext j => (s.nextTxid j).2
  | TxOp.otherInsert j tx tgt => s.insert j tx tgt
  | TxOp.otherClear j => s.clearTarget j
  | TxOp.otherSetLast j tx => s.setLastTxid j tx
  | TxOp.otherRemove j => s.remove j

/-- Run a sequence of interleaved operations. -/
def TxOp.runOps (i : WindowServerId) (s : WindowTxStore) : List TxOp → WindowTxStore
  | [] => s
  | op :: rest => TxOp.runOps i (op.apply i s) rest

theorem lastTxid_nextTxid (s : WindowTxStore) (i : WindowServerId) :
    (s.nextTxid i).1 = s.lastTxid i + 1 ∧
    (s.nextTxid i).2.lastTxid i = s.lastTxid i + 1 := by
  unfold WindowTxStore.nextTxid WindowTxStore.lastTxid WindowTxStore.get
  cases h : lookupA s i <;>
    simp [h, TransactionId.next, TransactionId.default, lookupA_insertA_self]

theorem lastTxid_safeOp (s : WindowTxStore) (i : WindowServerId) (op : TxOp)
    (hop : op.safeFor i) : (op.apply i s).lastTxid i = s.lastTxid i := by
  cases op with
  | clearTargetCur =>
    unfold TxOp.apply WindowTxStore.clearTarget WindowTxStore.lastTxid WindowTxStore.get
    rw [lookupA_updateA_self]
    cases lookupA s i <;> simp
  | insertCur tgt =>
    unfold TxOp.apply WindowTxStore.insert WindowTxStore.lastTxid WindowTxStore.get
    rw [lookupA_insertA_self]
    rfl
  | setLastCur =>
    unfold TxOp.apply WindowTxStore.setLastTxid WindowTxStore.lastTxid WindowTxStore.get
    rw [lookupA_insertA_self]
    rfl
  | otherNext j =>
    have hj : j ≠ i := hop
    unfold TxOp.apply WindowTxStore.nextTxid WindowTxStore.lastTxid WindowTxStore.get
    cases h : lookupA s j <;> simp [h, lookupA_insertA_ne _ _ _ _ hj]
  | otherInsert j tx tgt =>
    have hj : j ≠ i := hop
    unfold TxOp.apply WindowTxStore.insert WindowTxStore.lastTxid WindowTxStore.get
    rw [lookupA_insertA_ne _ _ _ _ hj]
  | otherClear j =>
    have hj : j ≠ i := hop
    unfold TxOp.apply WindowTxStore.clearTarget WindowTxStore.lastTxid WindowTxStore.get
    rw [lookupA_updateA_ne _ _ _ _ hj]
  | otherSetLast j tx =>
    have hj : j ≠ i := hop
    unfold TxOp.apply WindowTxStore.setLastTxid WindowTxStore.lastTxid WindowTxStore.get
    rw [lookupA_insertA_ne _ _ _ _ hj]
  | otherRemove j =>
    have hj : j ≠ i := hop
    unfold TxOp.apply WindowTxStore.remove WindowTxStore.lastTxid WindowTxStore.get
    rw [lookupA_removeA_ne _ _ _ hj]

theorem lastTxid_runOps (i : WindowServerId) (ops : List TxOp) :
    ∀ s : WindowTxStore, (∀ op ∈ ops, op.safeFor i) →
      (TxOp.runOps i s ops).lastTxid i = s.lastTxid i := by
  induction ops with
  | nil => intro s _; rfl
  | cons op rest ih =>
    intro s hops
    have h1 : op.safeFor i := hops op (List.mem_cons_self op rest)
    have h2 : ∀ o ∈ rest, TxOp.safeFor i o :=
      fun o ho => hops o (List.mem_cons_of_mem op ho)
    calc (TxOp.runOps i (op.apply i s) rest).lastTxid i
        = (op.apply i s).lastTxid i := ih (op.apply i s) h2
      _ = s.lastTxid i := lastTxid_safeOp s i op h1

/-! ### Concrete values used by witnesses and counterexamples -/

/-- Build a rect from origin and size coordinates. -/
def mkRect (x y w h : ℚ) : CGRect :=
  { origin := { x := x, y := y }, size := { width := w, height := h } }

/-- A trivial oracle environment. -/
def envW : Env :=
  { missionControlActive := false
    changingScreens := []
    mouseState := none
    bestSpace := fun _ _ => none
    isSpaceActive := fun _ => false
    workspaceCommandSpace := none
    screens := []
    activeLayoutModeAt := fun _ => LayoutMode.traditional
    isWindowFloating := fun _ => false
    activeWorkspace := fun _ => none
    appKnown := fun _ => false
    swapTarget := fun _ _ => none
    probeTarget := fun _ _ => none
    computeManageability := fun _ _ _ _ => false }

/-- A sample window id. -/
def widC : WindowId := { pid := 1, idx := 1 }

/-- A sample non-minimized window backed by window server id 1. -/
def winC : WindowState :=
  { info := { sys_id := some 1, is_minimized := false, is_standard := true, is_root := true }
    frame_monotonic := mkRect 0 0 100 100
    is_manageable := true
    ignore_app_rule := false }

/-- A sample drag session dragging `widC`. -/
def sessC : DragSession :=
  { window := widC, last_frame := mkRect 0 0 100 100
    origin_space := none, settled_space := none, layout_dirty := false }

/-- A sample reactor hosting `widC` with a registered probe and an
active drag of `widC`. -/
def reactorC : Reactor :=
  { windows := [(widC, winC)]
    windowIds := [(1, widC)]
    windowServerInfo := [1]
    visibleWindows := [1]
    txStore := []
    constraintProbes := [(widC, { txid := 1, target := mkRect 0 0 10 10 })]
    constraints := []
    assignments := []
    dragState := DragState.active sessC
    lastTargetMem := none
    skipLayout := none }

/-- The sample window, minimized. -/
def winMin : WindowState :=
  { winC with info := { winC.info with is_minimized := true } }

/-- The sample reactor with the window minimized. -/
def reactorMin : Reactor := { reactorC with windows := [(widC, winMin)] }

/-- The sample reactor with no probe, no drag, and a pending transaction
(txid 1, target 50x50) for window server id 1. -/
def reactorT : Reactor :=
  { reactorC with
    constraintProbes := []
    dragState := DragState.inactive
    txStore := [(1, { txid := 1, target := some (mkRect 0 0 50 50) })] }

/-- The sample reactor with a pending transaction whose last sent txid
is 2 and a registered constraint probe still carrying txid 1. -/
def reactorP : Reactor :=
  { reactorC with
    dragState := DragState.inactive
    txStore := [(1, { txid := 2, target := some (mkRect 0 0 50 50) })] }

/-- The sample reactor with a pending transaction whose last sent txid
is 2 and no registered probe. -/
def reactorS : Reactor :=
  { reactorP with constraintProbes := [] }

/-! ### Evaluation lemmas for handle_window_frame_changed -/

theorem sameAs_refl (a : CGRect) : CGRect.sameAs a a = true := by
  simp [CGRect.sameAs, CGPoint.sameAs, CGSize.sameAs, Rat.sameAs, absQ, sameTol]

theorem handleMouseUpIfNeeded_preserves (s : Reactor) (m : Option MouseState) :
    (handleMouseUpIfNeeded s m).1.windows = s.windows ∧
    (handleMouseUpIfNeeded s m).1.txStore = s.txStore ∧
    (handleMouseUpIfNeeded s m).1.constraintProbes = s.constraintProbes ∧
    (handleMouseUpIfNeeded s m).1.constraints = s.constraints ∧
    (handleMouseUpIfNeeded s m).2.events = [] := by
  unfold handleMouseUpIfNeeded dragHandleMouseUp
  repeat' split
  all_goals simp [Output.empty]

theorem coreEval_triggered (env : Env) (s : Reactor) (wid : WindowId)
    (w : WindowState) (wsid : WindowServerId) (tx : TransactionId)
    (target newFrame : CGRect) (requested : Bool) (ck : FrameChangeKind)
    (m : Option MouseState)
    (hw : lookupA s.windows wid = some w)
    (hsys : w.info.sys_id = some wsid)
    (hmc : env.missionControlActive = false)
    (hcs : wsid ∉ env.changingScreens)
    (hprobe : ∀ p, lookupA s.constraintProbes wid = some p → p.txid ≠ tx)
    (hrec : lookupA s.txStore wsid = some { txid := tx, target := some target })
    (hm : m ≠ some MouseState.down) :
    frameChangedCore env s wid newFrame (some tx) requested ck m
      = triggeredBranch env s wid newFrame ck (some wsid) (some (wsid, target)) := by
  have hmb : (m == some MouseState.down) = false := by
    simp [hm]
  rcases hp : lookupA s.constraintProbes wid with _ | p
  · simp [frameChangedCore, afterProbe, hw, hsys, hmc, hcs, hp, WindowTxStore.get,
      WindowTxStore.lastTxid, hrec, hmb]
  · have hne : tx ≠ p.txid := Ne.symm (hprobe p hp)
    simp [frameChangedCore, afterProbe, hw, hsys, hmc, hcs, hp, hne, WindowTxStore.get,
      WindowTxStore.lastTxid, hrec, hmb]

theorem coreEval_staleEcho (env : Env) (s : Reactor) (wid : WindowId)
    (w : WindowState) (wsid : WindowServerId) (tx rtx : TransactionId)
    (tgt newFrame : CGRect) (requested : Bool) (ck : FrameChangeKind)
    (m : Option MouseState)
    (hw : lookupA s.windows wid = some w)
    (hsys : w.info.sys_id = some wsid)
    (hmc : env.missionControlActive = false)
    (hcs : wsid ∉ env.changingScreens)
    (hprobe : ∀ p, lookupA s.constraintProbes wid = some p → p.txid ≠ tx)
    (hrec : lookupA s.txStore wsid = some { txid := rtx, target := some tgt })
    (ht : tx ≠ rtx) :
    frameChangedCore env s wid newFrame (some tx) requested ck m
      = (s, Output.empty, false) := by
  rcases hp : lookupA s.constraintProbes wid with _ | p
  · simp [frameChangedCore, afterProbe, hw, hsys, hmc, hcs, hp, WindowTxStore.get,
      WindowTxStore.lastTxid, hrec, ht]
  · have hne : tx ≠ p.txid := Ne.symm (hprobe p hp)
    simp [frameChangedCore, afterProbe, hw, hsys, hmc, hcs, hp, hne, WindowTxStore.get,
      WindowTxStore.lastTxid, hrec, ht]

theorem coreEval_noTxid (env : Env) (s : Reactor) (wid : WindowId)
    (w : WindowState) (wsid : WindowServerId) (newFrame : CGRect)
    (ck : FrameChangeKind) (m : Option MouseState)
    (hw : lookupA s.windows wid = some w)
    (hsys : w.info.sys_id = some wsid)
    (hmc : env.missionControlActive = false)
    (hcs : wsid ∉ env.changingScreens) :
    frameChangedCore env s wid newFrame none false ck m
      = genuineExternal env s wid newFrame w.frame_monotonic (some wsid) m := by
  rcases hp : lookupA s.constraintProbes wid with _ | p
  · simp [frameChangedCore, afterProbe, hw, hsys, hmc, hcs, hp]
  · simp [frameChangedCore, afterProbe, hw, hsys, hmc, hcs, hp]

/-! ### No-op characterizations of the handler, used by the idempotence
claim: a delivery whose frame is already current (within tolerance), or
whose placements are inactive, leaves the state untouched. -/

theorem genuineExternal_noop (env : Env) (s : Reactor) (wid : WindowId)
    (newFrame oldFrame : CGRect) (sid : Option WindowServerId)
    (m : Option MouseState)
    (hcase :
      (∀ w, lookupA s.windows wid = some w →
        CGRect.sameAs w.frame_monotonic newFrame = true) ∨
      (((env.bestSpace oldFrame sid).map env.isSpaceActive).getD false = false ∧
       ((env.bestSpace newFrame sid).map env.isSpaceActive).getD false = false)) :
    genuineExternal env s wid newFrame oldFrame sid m = (s, Output.empty, false) := by
  rcases hcase with h | ⟨h1, h2⟩
  · simp only [genuineExternal]
    split
    · rfl
    · rcases hwin : lookupA s.windows wid with _ | w
      · simp [hwin]
      · simp [hwin, h w hwin]
  · simp [genuineExternal, h1, h2]

theorem afterProbe_noop (env : Env) (s : Reactor) (wid : WindowId)
    (newFrame : CGRect) (lastSeen : Option TransactionId) (requested : Bool)
    (ck : FrameChangeKind) (m : Option MouseState) (w : WindowState)
    (hwin : lookupA s.windows wid = some w)
    (htgt : ∀ wsid, w.info.sys_id = some wsid →
      ∀ r, lookupA s.txStore wsid = some r → r.target = none)
    (hreq : requested = true →
      CGRect.sameAs w.frame_monotonic newFrame = true ∧
      ∀ wsid, w.info.sys_id = some wsid → lookupA s.txStore wsid = none)
    (hfr : requested = false →
      (CGRect.sameAs w.frame_monotonic newFrame = true ∨
       (((env.bestSpace w.frame_monotonic w.info.sys_id).map env.isSpaceActive).getD
            false = false ∧
        ((env.bestSpace newFrame w.info.sys_id).map env.isSpaceActive).getD
            false = false))) :
    afterProbe env s wid newFrame lastSeen requested ck m w.info.sys_id
        w.frame_monotonic
      = (s, Output.empty, false) := by
  have hpt : (w.info.sys_id.bind (fun wsid =>
      (s.txStore.get wsid).bind (fun r => r.target.map (fun t => (wsid, t))))) = none := by
    rcases hsid : w.info.sys_id with _ | wsid
    · rfl
    · rcases hr : lookupA s.txStore wsid with _ | r
      · simp [WindowTxStore.get, hr]
      · simp [WindowTxStore.get, hr, htgt wsid hsid r hr]
  cases requested with
  | true =>
    obtain ⟨hsame, habs⟩ := hreq rfl
    rcases hsid : w.info.sys_id with _ | wsid
    · simp [afterProbe, hpt, hwin, hsame, hsid]
    · rw [hsid] at hpt
      simp [afterProbe, hpt, hwin, hsame, hsid, WindowTxStore.remove,
        removeA_absent _ _ (habs wsid hsid)]
  | false =>
    have hlast := hfr rfl
    have hg := genuineExternal_noop env s wid newFrame w.frame_monotonic
      w.info.sys_id m
      (by
        rcases hlast with h | h
        · exact Or.inl (fun w2 hw2 => by
            rw [hwin] at hw2
            cases hw2
            exact h)
        · exact Or.inr h)
    simp [afterProbe, hpt, hg]

theorem afterProbe_noop2 (env : Env) (s : Reactor) (wid : WindowId)
    (newFrame : CGRect) (ck : FrameChangeKind) (m : Option MouseState)
    (sid : Option WindowServerId) (oldFrame : CGRect)
    (hfr :
      (∀ w, lookupA s.windows wid = some w →
        CGRect.sameAs w.frame_monotonic newFrame = true) ∨
      (((env.bestSpace oldFrame sid).map env.isSpaceActive).getD false = false ∧
       ((env.bestSpace newFrame sid).map env.isSpaceActive).getD false = false)) :
    afterProbe env s wid newFrame none false ck m sid oldFrame
      = (s, Output.empty, false) := by
  have hb : ∀ x : TransactionId,
      ((none : Option TransactionId) == some x) = false := fun x => rfl
  have hg := genuineExternal_noop env s wid newFrame oldFrame sid m hfr
  simp [afterProbe, hb, hg]

theorem coreNoop (env : Env) (S : Reactor) (wid : WindowId) (newFrame : CGRect)
    (lastSeen : Option TransactionId) (requested : Bool) (ck : FrameChangeKind)
    (m : Option MouseState)
    (hpm : ∀ w, lookupA S.windows wid = some w →
      ∀ p, lookupA S.constraintProbes wid = some p → lastSeen ≠ some p.txid)
    (htgt : ∀ w, lookupA S.windows wid = some w →
      ∀ wsid, w.info.sys_id = some wsid →
      ∀ r, lookupA S.txStore wsid = some r → r.target = none)
    (hreq : requested = true → ∀ w, lookupA S.windows wid = some w →
      CGRect.sameAs w.frame_monotonic newFrame = true ∧
      ∀ wsid, w.info.sys_id = some wsid → lookupA S.txStore wsid = none)
    (hfr : requested = false → ∀ w, lookupA S.windows wid = some w →
      (CGRect.sameAs w.frame_monotonic newFrame = true ∨
       (((env.bestSpace w.frame_monotonic w.info.sys_id).map env.isSpaceActive).getD
            false = false ∧
        ((env.bestSpace newFrame w.info.sys_id).map env.isSpaceActive).getD
            false = false))) :
    frameChangedCore env S wid newFrame lastSeen requested ck m
      = (S, Output.empty, false) := by
  rcases hwin : lookupA S.windows wid with _ | w
  · simp [frameChangedCore, hwin]
  · simp only [frameChangedCore, hwin]
    split
    · rfl
    · have hPH : (match lookupA S.constraintProbes wid, lastSeen with
          | some probe, some seen => if seen = probe.txid then some probe else none
          | _, _ => (none : Option ConstraintProbe)) = none := by
        rcases hp : lookupA S.constraintProbes wid with _ | p
        · cases lastSeen <;> rfl
        · rcases hls : lastSeen with _ | t
          · rfl
          · have h2 := hpm w hwin p hp
            rw [hls] at h2
            have htn : t ≠ p.txid := fun hh => h2 (by rw [hh])
            simp [htn]
      simp only [hPH]
      exact afterProbe_noop env S wid newFrame lastSeen requested ck m w hwin
        (htgt w hwin) (fun hr => hreq hr w hwin) (fun hr => hfr hr w hwin)

theorem coreNoop_noTxid (env : Env) (S : Reactor) (wid : WindowId)
    (newFrame : CGRect) (ck : FrameChangeKind) (m : Option MouseState)
    (hfr : ∀ w, lookupA S.windows wid = some w →
      (CGRect.sameAs w.frame_monotonic newFrame = true ∨
       (((env.bestSpace w.frame_monotonic w.info.sys_id).map env.isSpaceActive).getD
            false = false ∧
        ((env.bestSpace newFrame w.info.sys_id).map env.isSpaceActive).getD
            false = false))) :
    frameChangedCore env S wid newFrame none false ck m
      = (S, Output.empty, false) := by
  rcases hwin : lookupA S.windows wid with _ | w
  · simp [frameChangedCore, hwin]
  · simp only [frameChangedCore, hwin]
    split
    · rfl
    · have hPH : (match lookupA S.constraintProbes wid,
              (none : Option TransactionId) with
          | some probe, some seen => if seen = probe.txid then some probe else none
          | _, _ => (none : Option ConstraintProbe)) = none := by
        cases lookupA S.constraintProbes wid <;> rfl
      simp only [hPH]
      refine afterProbe_noop2 env S wid newFrame ck m w.info.sys_id
        w.frame_monotonic ?_
      rcases hfr w hwin with h | h
      · exact Or.inl (fun w2 hw2 => by
          rw [hwin] at hw2
          cases hw2
          exact h)
      · exact Or.inr h

theorem coreNoop_suppressed (env : Env) (S : Reactor) (wid : WindowId)
    (newFrame : CGRect) (lastSeen : Option TransactionId) (requested : Bool)
    (ck : FrameChangeKind) (m : Option MouseState) (w : WindowState)
    (hwin : lookupA S.windows wid = some w)
    (hs : (env.missionControlActive ||
      (match w.info.sys_id with
       | some wsid => env.changingScreens.contains wsid
       | none => false)) = true) :
    frameChangedCore env S wid newFrame lastSeen requested ck m
      = (S, Output.empty, false) := by
  simp only [frameChangedCore, hwin]
  split
  · rfl
  · rename_i hcond
    exact absurd hs hcond

theorem coreEval_intermediateSkip (env : Env) (s : Reactor) (wid : WindowId)
    (w : WindowState) (wsid : WindowServerId) (tx : TransactionId)
    (target newFrame : CGRect) (requested : Bool) (ck : FrameChangeKind)
    (m : Option MouseState)
    (hw : lookupA s.windows wid = some w)
    (hsys : w.info.sys_id = some wsid)
    (hmc : env.missionControlActive = false)
    (hcs : wsid ∉ env.changingScreens)
    (hprobe : ∀ p, lookupA s.constraintProbes wid = some p → p.txid ≠ tx)
    (hrec : lookupA s.txStore wsid = some { txid := tx, target := some target })
    (hm : m ≠ some MouseState.down)
    (hnm : CGRect.sameAs newFrame target = false)
    (hck : (ck == FrameChangeKind.resize
        && !CGSize.sameAs newFrame.size target.size) = false) :
    frameChangedCore env s wid newFrame (some tx) requested ck m
      = (s, Output.empty, false) := by
  have h1 := coreEval_triggered env s wid w wsid tx target newFrame requested ck m
    hw hsys hmc hcs hprobe hrec hm
  rw [h1]
  simp [triggeredBranch, hw, hnm, hck]

/-! ### State-field characterizations of the handler's sub-operations -/

theorem handleMouseUpIfNeeded_idem (s : Reactor) (m : Option MouseState) :
    handleMouseUpIfNeeded (handleMouseUpIfNeeded s m).1 m
      = ((handleMouseUpIfNeeded s m).1, Output.empty) := by
  by_cases h : (m == some MouseState.up && (s.isInDrag || s.skipLayout.isSome)) = true
  · have hum := h
    simp only [Bool.and_eq_true, beq_iff_eq] at hum
    obtain ⟨hm, hcd⟩ := hum
    cases hd : s.dragState
    · have hskip : s.skipLayout.isSome = true := by
        simpa [Reactor.isInDrag, hd] using hcd
      simp [handleMouseUpIfNeeded, dragHandleMouseUp, hm, hd, hskip,
        Reactor.isInDrag]
    · simp [handleMouseUpIfNeeded, dragHandleMouseUp, hm, hd, Reactor.isInDrag]
    · simp [handleMouseUpIfNeeded, dragHandleMouseUp, hm, hd, Reactor.isInDrag]
  · have hf : (m == some MouseState.up && (s.isInDrag || s.skipLayout.isSome))
        = false := Bool.eq_false_iff.mpr h
    simp [handleMouseUpIfNeeded, hf]

theorem maybeStart_constraint_some (env : Env) (s : Reactor) (wid : WindowId)
    (space : SpaceId) (h : (lookupA s.constraints wid).isSome = true) :
    maybeStartConstraintProbe env s wid space = (false, s) := by
  simp [maybeStartConstraintProbe, h]

theorem maybeDispatch_constraint_some (env : Env) (s : Reactor) (wid : WindowId)
    (space : SpaceId) (h : (lookupA s.constraints wid).isSome = true) :
    (maybeDispatchWindowAddedInSpace env s wid space).1 = s := by
  unfold maybeDispatchWindowAddedInSpace
  simp [maybeStart_constraint_some env s wid space h, apply_ite]

theorem processWindows_constraint_some (env : Env) (s : Reactor) (wid : WindowId)
    (h : (lookupA s.constraints wid).isSome = true) :
    (processWindowsForAppRules env s wid).1 = s := by
  unfold processWindowsForAppRules
  repeat' split
  · rfl
  · exact maybeDispatch_constraint_some env s wid _ h
  · rfl

theorem probeResolve_fst (env : Env) (s : Reactor) (wid : WindowId) (nf : CGRect)
    (sid : Option WindowServerId) (p : ConstraintProbe) :
    (probeResolve env s wid nf sid p).1
      = { s.setFrame wid nf with
          txStore :=
            (match sid with
             | some wsid => removeA s.txStore wsid
             | none => s.txStore)
          constraints := insertA s.constraints wid
            (mergeConstraints (lookupA s.constraints wid)
              (inferConstraintFromTarget nf p.target))
          constraintProbes := removeA s.constraintProbes wid } := by
  unfold probeResolve
  rcases sid with _ | wsid <;>
  · repeat' split
    all_goals
      simp [processWindows_constraint_some, maybeDispatch_constraint_some,
        lookupA_insertA_self, WindowTxStore.remove, Reactor.setFrame]

theorem ensureActiveDrag_fields (env : Env) (s : Reactor) (wid : WindowId)
    (old : CGRect) :
    (ensureActiveDrag env s wid old).windows = s.windows ∧
    (ensureActiveDrag env s wid old).constraintProbes = s.constraintProbes ∧
    (ensureActiveDrag env s wid old).constraints = s.constraints ∧
    ((ensureActiveDrag env s wid old).txStore = s.txStore ∨
      ∃ j, (ensureActiveDrag env s wid old).txStore = removeA s.txStore j) := by
  unfold ensureActiveDrag
  cases hd : s.dragState with
  | inactive =>
    rcases hsid : ((lookupA s.windows wid).bind fun w => w.info.sys_id) with _ | wsid
    · exact ⟨by simp [hsid], by simp [hsid], by simp [hsid],
        Or.inl (by simp [hsid])⟩
    · exact ⟨by simp [hsid], by simp [hsid], by simp [hsid],
        Or.inr ⟨wsid, by simp [hsid, WindowTxStore.remove]⟩⟩
  | active sess => exact ⟨rfl, rfl, rfl, Or.inl rfl⟩
  | pendingSwap sess t => exact ⟨rfl, rfl, rfl, Or.inl rfl⟩

theorem updateActiveDrag_fields (s : Reactor) (wid : WindowId) (nf : CGRect) :
    (updateActiveDrag s wid nf).windows = s.windows ∧
    (updateActiveDrag s wid nf).constraintProbes = s.constraintProbes ∧
    (updateActiveDrag s wid nf).constraints = s.constraints ∧
    (updateActiveDrag s wid nf).txStore = s.txStore := by
  unfold updateActiveDrag
  cases hd : s.dragState with
  | inactive => exact ⟨rfl, rfl, rfl, rfl⟩
  | active sess => by_cases hw : sess.window = wid <;> simp [hw]
  | pendingSwap sess t => by_cases hw : sess.window = wid <;> simp [hw]

theorem maybeSwapOnDrag_fields (env : Env) (s : Reactor) (wid : WindowId)
    (nf : CGRect) :
    (maybeSwapOnDrag env s wid nf).windows = s.windows ∧
    (maybeSwapOnDrag env s wid nf).constraintProbes = s.constraintProbes ∧
    (maybeSwapOnDrag env s wid nf).constraints = s.constraints ∧
    (maybeSwapOnDrag env s wid nf).txStore = s.txStore := by
  unfold maybeSwapOnDrag
  rcases hsw : env.swapTarget wid nf with _ | t <;> simp only [hsw] <;>
    cases hd : s.dragState <;> (repeat' split) <;> exact ⟨rfl, rfl, rfl, rfl⟩

theorem lookupA_removeA_target_none (X : WindowTxStore) (j wsid : WindowServerId)
    (h : ∀ r, lookupA X wsid = some r → r.target = none) :
    ∀ r, lookupA (removeA X j) wsid = some r → r.target = none := by
  intro r hr
  by_cases hj : j = wsid
  · subst hj
    rw [lookupA_removeA_self] at hr
    cases hr
  · rw [lookupA_removeA_ne _ _ _ hj] at hr
    exact h r hr

theorem maybeDispatch_post (env : Env) (s : Reactor) (wid : WindowId)
    (space : SpaceId) :
    (maybeDispatchWindowAddedInSpace env s wid space).1.windows = s.windows ∧
    (((maybeDispatchWindowAddedInSpace env s wid space).1.txStore = s.txStore ∧
      (maybeDispatchWindowAddedInSpace env s wid space).1.constraintProbes
        = s.constraintProbes) ∨
     (∃ wsid tgt,
       (∃ w, lookupA s.windows wid = some w ∧ w.info.sys_id = some wsid) ∧
       (maybeDispatchWindowAddedInSpace env s wid space).1.txStore
         = insertA s.txStore wsid
             { txid := s.txStore.lastTxid wsid + 1, target := none } ∧
       (maybeDispatchWindowAddedInSpace env s wid space).1.constraintProbes
         = insertA s.constraintProbes wid
             { txid := s.txStore.lastTxid wsid + 1, target := tgt })) := by
  unfold maybeDispatchWindowAddedInSpace maybeStartConstraintProbe
  rcases hw : lookupA s.windows wid with _ | w
  · exact ⟨by simp [hw], Or.inl ⟨by simp [hw], by simp [hw]⟩⟩
  · by_cases hman : w.isEffectivelyManageable = true
    · by_cases hc : (lookupA s.constraints wid).isSome = true
      · exact ⟨by simp [hw, hman, hc],
          Or.inl ⟨by simp [hw, hman, hc], by simp [hw, hman, hc]⟩⟩
      · rcases hsys : w.info.sys_id with _ | wsid
        · exact ⟨by simp [hw, hman, hc, hsys],
            Or.inl ⟨by simp [hw, hman, hc, hsys], by simp [hw, hman, hc, hsys]⟩⟩
        · rcases htg : env.probeTarget wid space with _ | tgt
          · exact ⟨by simp [hw, hman, hc, hsys, htg],
              Or.inl ⟨by simp [hw, hman, hc, hsys, htg],
                by simp [hw, hman, hc, hsys, htg]⟩⟩
          · refine ⟨?_, Or.inr ⟨wsid, tgt, ⟨w, rfl, hsys⟩, ?_, ?_⟩⟩ <;>
              rcases hr : lookupA s.txStore wsid with _ | r0 <;>
                simp [hw, hman, hc, hsys, htg, WindowTxStore.nextTxid, hr,
                  WindowTxStore.lastTxid, WindowTxStore.get,
                  TransactionId.next, TransactionId.default]
    · have hman2 : w.isEffectivelyManageable = false := Bool.eq_false_iff.mpr hman
      exact ⟨by simp [hw, hman2],
        Or.inl ⟨by simp [hw, hman2], by simp [hw, hman2]⟩⟩

theorem afterProbe_genuine (env : Env) (s : Reactor) (wid : WindowId)
    (nf : CGRect) (lastSeen : Option TransactionId) (ck : FrameChangeKind)
    (m : Option MouseState) (sid : Option WindowServerId) (old : CGRect)
    (hpt : (sid.bind (fun wsid =>
      (s.txStore.get wsid).bind (fun r => r.target.map (fun t => (wsid, t))))) = none) :
    afterProbe env s wid nf lastSeen false ck m sid old
      = genuineExternal env s wid nf old sid m := by
  simp [afterProbe, hpt]

theorem afterProbe_requested_post (env : Env) (s : Reactor) (wid : WindowId)
    (nf : CGRect) (lastSeen : Option TransactionId) (ck : FrameChangeKind)
    (m : Option MouseState) (sid : Option WindowServerId) (old : CGRect)
    (hpt : (sid.bind (fun wsid =>
      (s.txStore.get wsid).bind (fun r => r.target.map (fun t => (wsid, t))))) = none ∨
      lastSeen = none) :
    (afterProbe env s wid nf lastSeen true ck m sid old).1.constraintProbes
        = s.constraintProbes ∧
    (((afterProbe env s wid nf lastSeen true ck m sid old).1.windows = s.windows ∧
      (∀ w, lookupA s.windows wid = some w →
        CGRect.sameAs w.frame_monotonic nf = true)) ∨
     (afterProbe env s wid nf lastSeen true ck m sid old).1.windows
        = updateA (fun w2 => { w2 with frame_monotonic := nf }) s.windows wid) ∧
    (∀ wsid, sid = some wsid →
      lookupA (afterProbe env s wid nf lastSeen true ck m sid old).1.txStore wsid
        = none) ∧
    (sid = none →
      (afterProbe env s wid nf lastSeen true ck m sid old).1.txStore
        = s.txStore) := by
  have hval : ∃ s2 : Reactor,
      (afterProbe env s wid nf lastSeen true ck m sid old).1
        = (match sid with
           | some wsid => { s2 with txStore := removeA s2.txStore wsid }
           | none => s2) ∧
      ((s2.windows = s.windows ∧ ∀ w, lookupA s.windows wid = some w →
          CGRect.sameAs w.frame_monotonic nf = true) ∨
        s2.windows
          = updateA (fun w2 => { w2 with frame_monotonic := nf }) s.windows wid) ∧
      s2.txStore = s.txStore ∧ s2.constraintProbes = s.constraintProbes := by
    have hb : ∀ x : TransactionId,
        ((none : Option TransactionId) == some x) = false := fun x => rfl
    rcases hwin : lookupA s.windows wid with _ | w
    · refine ⟨s, ?_,
        Or.inl ⟨rfl, fun w h => by simp [hwin] at h⟩, rfl, rfl⟩
      rcases hpt with hpt | hls
      · rcases sid with _ | wsid <;>
          simp [afterProbe, hpt, hwin, WindowTxStore.remove]
      · subst hls
        rcases sid with _ | wsid <;>
          simp [afterProbe, hb, hwin, WindowTxStore.remove]
    · by_cases hsame : CGRect.sameAs w.frame_monotonic nf = true
      · refine ⟨s, ?_,
          Or.inl ⟨rfl, fun w2 h => by
            simp [hwin] at h
            exact h ▸ hsame⟩, rfl, rfl⟩
        rcases hpt with hpt | hls
        · rcases sid with _ | wsid <;>
            simp [afterProbe, hpt, hwin, hsame, WindowTxStore.remove]
        · subst hls
          rcases sid with _ | wsid <;>
            simp [afterProbe, hb, hwin, hsame, WindowTxStore.remove]
      · have hsf := Bool.eq_false_iff.mpr hsame
        refine ⟨s.setFrame wid nf, ?_, Or.inr (by simp [Reactor.setFrame]),
          by simp [Reactor.setFrame], by simp [Reactor.setFrame]⟩
        rcases hpt with hpt | hls
        · rcases sid with _ | wsid <;>
            simp [afterProbe, hpt, hwin, hsf, WindowTxStore.remove]
        · subst hls
          rcases sid with _ | wsid <;>
            simp [afterProbe, hb, hwin, hsf, WindowTxStore.remove]
  obtain ⟨s2, hv, hw2, ht2, hp2⟩ := hval
  rcases sid with _ | wsid
  · refine ⟨?_, ?_, ?_, ?_⟩
    · rw [hv]
      exact hp2
    · rcases hw2 with ⟨ha, hb⟩ | ha
      · exact Or.inl ⟨by rw [hv]; exact ha, hb⟩
      · exact Or.inr (by rw [hv]; exact ha)
    · intro x h
      cases h
    · intro _
      rw [hv]
      exact ht2
  · refine ⟨?_, ?_, ?_, ?_⟩
    · rw [hv]
      exact hp2
    · rcases hw2 with ⟨ha, hb⟩ | ha
      · exact Or.inl ⟨by rw [hv]; exact ha, hb⟩
      · exact Or.inr (by rw [hv]; exact ha)
    · intro x h
      cases h
      rw [hv]
      show lookupA (removeA s2.txStore wsid) wsid = none
      exact lookupA_removeA_self s2.txStore wsid
    · intro h
      cases h

theorem genuineExternal_post (env : Env) (s : Reactor) (wid : WindowId)
    (nf old : CGRect) (sid : Option WindowServerId) (m : Option MouseState) :
    ((genuineExternal env s wid nf old sid m).1 = s ∧
     ((∀ w, lookupA s.windows wid = some w →
         CGRect.sameAs w.frame_monotonic nf = true) ∨
      (((env.bestSpace old sid).map env.isSpaceActive).getD false = false ∧
       ((env.bestSpace nf sid).map env.isSpaceActive).getD false = false))) ∨
    ((genuineExternal env s wid nf old sid m).1.windows
        = updateA (fun w2 => { w2 with frame_monotonic := nf }) s.windows wid ∧
     (((((genuineExternal env s wid nf old sid m).1.txStore = s.txStore ∨
         ∃ j, (genuineExternal env s wid nf old sid m).1.txStore
            = removeA s.txStore j) ∧
        (genuineExternal env s wid nf old sid m).1.constraintProbes
          = s.constraintProbes)) ∨
      (∃ wsid tgt2,
        (m == some MouseState.down) = false ∧
        (∃ w2, lookupA (s.setFrame wid nf).windows wid = some w2 ∧
          w2.info.sys_id = some wsid) ∧
        (genuineExternal env s wid nf old sid m).1.txStore
          = insertA s.txStore wsid
              { txid := s.txStore.lastTxid wsid + 1, target := none } ∧
        (genuineExternal env s wid nf old sid m).1.constraintProbes
          = insertA s.constraintProbes wid
              { txid := s.txStore.lastTxid wsid + 1, target := tgt2 }))) := by
  by_cases hact : (!((env.bestSpace old sid).map env.isSpaceActive).getD false
      && !((env.bestSpace nf sid).map env.isSpaceActive).getD false) = true
  · have h2 := hact
    simp only [Bool.and_eq_true, Bool.not_eq_true'] at h2
    exact Or.inl ⟨by simp [genuineExternal, hact], Or.inr h2⟩
  · have hactf := Bool.eq_false_iff.mpr hact
    rcases hwin : lookupA s.windows wid with _ | w
    · refine Or.inl ⟨by simp [genuineExternal, hactf, hwin], Or.inl ?_⟩
      intro w h
      simp [hwin] at h
    · by_cases hsame : CGRect.sameAs w.frame_monotonic nf = true
      · refine Or.inl ⟨by simp [genuineExternal, hactf, hwin, hsame], Or.inl ?_⟩
        intro w2 h
        simp [hwin] at h
        exact h ▸ hsame
      · have hsamef : CGRect.sameAs w.frame_monotonic nf = false :=
          Bool.eq_false_iff.mpr hsame
        refine Or.inr ?_
        by_cases hdr : (m == some MouseState.down || (s.setFrame wid nf).isInDrag)
            = true
        · -- drag path: ensure/update/swap touch only drag fields and the store
          have he2 : ∀ res : Reactor × Output × Bool,
              (genuineExternal env s wid nf old sid m) = res → True := fun _ _ => trivial
          have hmain :
              ∃ s4 : Reactor,
                ((genuineExternal env s wid nf old sid m).1 = s4 ∨
                 (genuineExternal env s wid nf old sid m).1
                    = maybeSwapOnDrag env s4 wid nf) ∧
                s4 = updateActiveDrag
                  (ensureActiveDrag env (s.setFrame wid nf) wid old) wid nf := by
            refine ⟨updateActiveDrag
              (ensureActiveDrag env (s.setFrame wid nf) wid old) wid nf, ?_, rfl⟩
            by_cases hres : CGSize.sameAs old.size nf.size = true
            · right
              simp [genuineExternal, hactf, hwin, hsamef, hdr, hres]
            · have hresf := Bool.eq_false_iff.mpr hres
              left
              by_cases hsp : (activeSpaceForWindow env nf sid).isSome = true <;>
                simp [genuineExternal, hactf, hwin, hsamef, hdr, hresf, hsp]
          obtain ⟨s4, hv, hs4⟩ := hmain
          have hef := ensureActiveDrag_fields env (s.setFrame wid nf) wid old
          have huf := updateActiveDrag_fields
            (ensureActiveDrag env (s.setFrame wid nf) wid old) wid nf
          have hs4w : s4.windows
              = updateA (fun w2 => { w2 with frame_monotonic := nf }) s.windows wid := by
            rw [hs4, huf.1, hef.1]
            rfl
          have hs4p : s4.constraintProbes = s.constraintProbes := by
            rw [hs4, huf.2.1, hef.2.1]
            rfl
          have hs4t : s4.txStore = s.txStore ∨
              ∃ j, s4.txStore = removeA s.txStore j := by
            rw [hs4, huf.2.2.2]
            rcases hef.2.2.2 with h | ⟨j, h⟩
            · exact Or.inl (by rw [h]; rfl)
            · exact Or.inr ⟨j, by rw [h]; rfl⟩
          have hmf := maybeSwapOnDrag_fields env s4 wid nf
          rcases hv with hv | hv
          · rw [hv]
            exact ⟨hs4w, Or.inl ⟨hs4t, hs4p⟩⟩
          · rw [hv]
            refine ⟨by rw [hmf.1]; exact hs4w, Or.inl ⟨?_, by rw [hmf.2.1]; exact hs4p⟩⟩
            rw [hmf.2.2.2]
            exact hs4t
        · -- non-drag path
          have hdrf := Bool.eq_false_iff.mpr hdr
          have hmd : (m == some MouseState.down) = false := by
            cases hmm : (m == some MouseState.down)
            · rfl
            · rw [hmm] at hdrf
              simp at hdrf
          by_cases hsp2 : (env.bestSpace old sid) ≠ (env.bestSpace nf sid)
          · -- placement changed: case on the two space computations
            rcases hos : env.bestSpace old sid with _ | spo
            · rcases hns : env.bestSpace nf sid with _ | spn
              · exact absurd (hos.trans hns.symm) hsp2
              · -- none → some spn: the activity guard forces spn active
                rcases hsn : env.isSpaceActive spn
                · exfalso
                  rw [hos, hns] at hactf
                  simp [hsn] at hactf
                · rcases haw : env.activeWorkspace spn with _ | ws
                  · have he : (genuineExternal env s wid nf old sid m).1
                        = (maybeDispatchWindowAddedInSpace env
                            ({ s.setFrame wid nf with skipLayout := some wid } :
                              Reactor) wid spn).1 := by
                      simp [genuineExternal, hos, hns, hsn, hwin, hsamef, hdrf, haw]
                    have hdp := maybeDispatch_post env
                      ({ s.setFrame wid nf with skipLayout := some wid } : Reactor)
                      wid spn
                    rw [he]
                    refine ⟨by rw [hdp.1]; rfl, ?_⟩
                    rcases hdp.2 with ⟨ht, hpp⟩ | ⟨wsid, tgt2, hw2, ht, hpp⟩
                    · exact Or.inl ⟨Or.inl ht, hpp⟩
                    · exact Or.inr ⟨wsid, tgt2, hmd, hw2, ht, hpp⟩
                  · have he : (genuineExternal env s wid nf old sid m).1
                        = (maybeDispatchWindowAddedInSpace env
                            ({ { s.setFrame wid nf with skipLayout := some wid } with
                                assignments := insertA
                                  ({ s.setFrame wid nf with skipLayout := some wid } :
                                    Reactor).assignments (spn, wid) ws } :
                              Reactor) wid spn).1 := by
                      simp [genuineExternal, hos, hns, hsn, hwin, hsamef, hdrf, haw]
                    have hdp := maybeDispatch_post env
                      ({ { s.setFrame wid nf with skipLayout := some wid } with
                          assignments := insertA
                            ({ s.setFrame wid nf with skipLayout := some wid } :
                              Reactor).assignments (spn, wid) ws } : Reactor)
                      wid spn
                    rw [he]
                    refine ⟨by rw [hdp.1]; rfl, ?_⟩
                    rcases hdp.2 with ⟨ht, hpp⟩ | ⟨wsid, tgt2, hw2, ht, hpp⟩
                    · exact Or.inl ⟨Or.inl ht, hpp⟩
                    · exact Or.inr ⟨wsid, tgt2, hmd, hw2, ht, hpp⟩
            · rcases hns : env.bestSpace nf sid with _ | spn
              · -- some spo → none: the activity guard forces spo active
                rcases hso : env.isSpaceActive spo
                · exfalso
                  rw [hos, hns] at hactf
                  simp [hso] at hactf
                · by_cases hka2 : (env.activeLayoutModeAt spo == LayoutMode.scrolling
                      && !env.isWindowFloating wid
                      && (lookupA ({ s.setFrame wid nf with skipLayout := some wid } :
                          Reactor).assignments (spo, wid)).isSome) = true
                  · have he : (genuineExternal env s wid nf old sid m).1
                        = { s.setFrame wid nf with skipLayout := some wid } := by
                      simp [genuineExternal, hos, hns, hso, hwin, hsamef, hdrf, hka2]
                    rw [he]
                    exact ⟨rfl, Or.inl ⟨Or.inl rfl, rfl⟩⟩
                  · have hka2f := Bool.eq_false_iff.mpr hka2
                    have he : (genuineExternal env s wid nf old sid m).1
                        = { s.setFrame wid nf with skipLayout := some wid } := by
                      simp [genuineExternal, hos, hns, hso, hwin, hsamef, hdrf, hka2f]
                    rw [he]
                    exact ⟨rfl, Or.inl ⟨Or.inl rfl, rfl⟩⟩
              · -- some spo → some spn with spo ≠ spn
                rw [hos, hns] at hsp2
                simp only [ne_eq, Option.some.injEq] at hsp2
                by_cases hka2 : (env.activeLayoutModeAt spo == LayoutMode.scrolling
                    && !env.isWindowFloating wid
                    && (lookupA ({ s.setFrame wid nf with skipLayout := some wid } :
                        Reactor).assignments (spo, wid)).isSome) = true
                · have he : (genuineExternal env s wid nf old sid m).1
                      = { s.setFrame wid nf with skipLayout := some wid } := by
                    rcases hso : env.isSpaceActive spo <;>
                      rcases hsn : env.isSpaceActive spn
                    · exfalso
                      rw [hos, hns] at hactf
                      simp [hso, hsn] at hactf
                    all_goals
                      simp [genuineExternal, hos, hns, hso, hsn, hsp2, hwin,
                        hsamef, hdrf, hka2]
                  rw [he]
                  exact ⟨rfl, Or.inl ⟨Or.inl rfl, rfl⟩⟩
                · have hka2f := Bool.eq_false_iff.mpr hka2
                  rcases hsn : env.isSpaceActive spn
                  · -- inactive destination: the dispatch match keeps the commit
                    rcases hso : env.isSpaceActive spo
                    · exfalso
                      rw [hos, hns] at hactf
                      simp [hso, hsn] at hactf
                    · have he : (genuineExternal env s wid nf old sid m).1
                          = { s.setFrame wid nf with skipLayout := some wid } := by
                        simp [genuineExternal, hos, hns, hso, hsn, hsp2, hwin,
                          hsamef, hdrf, hka2f]
                      rw [he]
                      exact ⟨rfl, Or.inl ⟨Or.inl rfl, rfl⟩⟩
                  · rcases haw : env.activeWorkspace spn with _ | ws
                    · have he : (genuineExternal env s wid nf old sid m).1
                          = (maybeDispatchWindowAddedInSpace env
                              ({ s.setFrame wid nf with skipLayout := some wid } :
                                Reactor) wid spn).1 := by
                        simp [genuineExternal, hos, hns, hsn, hsp2, hwin, hsamef,
                          hdrf, hka2f, haw]
                      have hdp := maybeDispatch_post env
                        ({ s.setFrame wid nf with skipLayout := some wid } : Reactor)
                        wid spn
                      rw [he]
                      refine ⟨by rw [hdp.1]; rfl, ?_⟩
                      rcases hdp.2 with ⟨ht, hpp⟩ | ⟨wsid, tgt2, hw2, ht, hpp⟩
                      · exact Or.inl ⟨Or.inl ht, hpp⟩
                      · exact Or.inr ⟨wsid, tgt2, hmd, hw2, ht, hpp⟩
                    · have he : (genuineExternal env s wid nf old sid m).1
                          = (maybeDispatchWindowAddedInSpace env
                              ({ { s.setFrame wid nf with skipLayout := some wid } with
                                  assignments := insertA
                                    ({ s.setFrame wid nf with skipLayout := some wid } :
                                      Reactor).assignments (spn, wid) ws } :
                                Reactor) wid spn).1 := by
                        simp [genuineExternal, hos, hns, hsn, hsp2, hwin, hsamef,
                          hdrf, hka2f, haw]
                      have hdp := maybeDispatch_post env
                        ({ { s.setFrame wid nf with skipLayout := some wid } with
                            assignments := insertA
                              ({ s.setFrame wid nf with skipLayout := some wid } :
                                Reactor).assignments (spn, wid) ws } : Reactor)
                        wid spn
                      rw [he]
                      refine ⟨by rw [hdp.1]; rfl, ?_⟩
                      rcases hdp.2 with ⟨ht, hpp⟩ | ⟨wsid, tgt2, hw2, ht, hpp⟩
                      · exact Or.inl ⟨Or.inl ht, hpp⟩
                      · exact Or.inr ⟨wsid, tgt2, hmd, hw2, ht, hpp⟩
          · -- same placement: every sub-branch keeps the committed state
            have hsp2e : env.bestSpace old sid = env.bestSpace nf sid :=
              not_not.mp hsp2
            rcases hos : env.bestSpace old sid with _ | spo
            · exfalso
              have hns : env.bestSpace nf sid = none := hsp2e.symm.trans hos
              rw [hos, hns] at hactf
              simp at hactf
            · have hns : env.bestSpace nf sid = some spo := hsp2e.symm.trans hos
              rcases hso : env.isSpaceActive spo
              · exfalso
                rw [hos, hns] at hactf
                simp [hso] at hactf
              · have he : (genuineExternal env s wid nf old sid m).1
                    = { s.setFrame wid nf with skipLayout := some wid } := by
                  by_cases hres : CGSize.sameAs old.size nf.size = true
                  · simp [genuineExternal, hos, hns, hso, hwin, hsamef, hdrf, hres]
                  · have hresf := Bool.eq_false_iff.mpr hres
                    simp [genuineExternal, hos, hns, hso, hwin, hsamef, hdrf, hresf]
                rw [he]
                exact ⟨rfl, Or.inl ⟨Or.inl rfl, rfl⟩⟩

/-! ### Second-delivery no-op machinery for the idempotence claim -/

theorem coreNoop_afterMouse (env : Env) (S2 : Reactor) (wid : WindowId)
    (nf : CGRect) (lastSeen : Option TransactionId) (requested : Bool)
    (ck : FrameChangeKind) (me m2 : Option MouseState)
    (hpm : ∀ p, lookupA S2.constraintProbes wid = some p → lastSeen ≠ some p.txid)
    (htgt : ∀ w, lookupA S2.windows wid = some w →
      ∀ wsid, w.info.sys_id = some wsid →
      ∀ r, lookupA S2.txStore wsid = some r → r.target = none)
    (hreq : requested = true → ∀ w, lookupA S2.windows wid = some w →
      CGRect.sameAs w.frame_monotonic nf = true ∧
      ∀ wsid, w.info.sys_id = some wsid → lookupA S2.txStore wsid = none)
    (hfr : requested = false → ∀ w, lookupA S2.windows wid = some w →
      (CGRect.sameAs w.frame_monotonic nf = true ∨
       (((env.bestSpace w.frame_monotonic w.info.sys_id).map env.isSpaceActive).getD
            false = false ∧
        ((env.bestSpace nf w.info.sys_id).map env.isSpaceActive).getD
            false = false))) :
    frameChangedCore env (handleMouseUpIfNeeded S2 m2).1 wid nf lastSeen requested
        ck me
      = ((handleMouseUpIfNeeded S2 m2).1, Output.empty, false) := by
  obtain ⟨hw, ht, hp, _, _⟩ := handleMouseUpIfNeeded_preserves S2 m2
  refine coreNoop env _ wid nf lastSeen requested ck me ?_ ?_ ?_ ?_
  · intro w hw2 p hp2
    rw [hp] at hp2
    exact hpm p hp2
  · intro w hw2 wsid hs r hr
    rw [hw] at hw2
    rw [ht] at hr
    exact htgt w hw2 wsid hs r hr
  · intro hrq w hw2
    rw [hw] at hw2
    obtain ⟨h1, h2⟩ := hreq hrq w hw2
    refine ⟨h1, fun wsid hs => ?_⟩
    rw [ht]
    exact h2 wsid hs
  · intro hrq w hw2
    rw [hw] at hw2
    exact hfr hrq w hw2

theorem coreNoopN2_afterMouse (env : Env) (S2 : Reactor) (wid : WindowId)
    (nf : CGRect) (ck : FrameChangeKind) (me m2 : Option MouseState)
    (hfr : ∀ w, lookupA S2.windows wid = some w →
      (CGRect.sameAs w.frame_monotonic nf = true ∨
       (((env.bestSpace w.frame_monotonic w.info.sys_id).map env.isSpaceActive).getD
            false = false ∧
        ((env.bestSpace nf w.info.sys_id).map env.isSpaceActive).getD
            false = false))) :
    frameChangedCore env (handleMouseUpIfNeeded S2 m2).1 wid nf none false ck me
      = ((handleMouseUpIfNeeded S2 m2).1, Output.empty, false) := by
  obtain ⟨hw, _, _, _, _⟩ := handleMouseUpIfNeeded_preserves S2 m2
  refine coreNoop_noTxid env _ wid nf ck me ?_
  intro w hw2
  rw [hw] at hw2
  exact hfr w hw2

theorem genuineExternal_second_noop (env : Env) (sB : Reactor) (wid : WindowId)
    (nf : CGRect) (lastSeen : Option TransactionId) (ck : FrameChangeKind)
    (me : Option MouseState) (w : WindowState)
    (hwin : lookupA sB.windows wid = some w)
    (hnohit : ∀ p, lookupA sB.constraintProbes wid = some p →
      lastSeen ≠ some p.txid)
    (htgtB : ∀ wsid, w.info.sys_id = some wsid →
      ∀ r, lookupA sB.txStore wsid = some r → r.target = none)
    (hech : (me == some MouseState.down) = true ∨
      ∀ t, lastSeen = some t → ∀ wsid, w.info.sys_id = some wsid →
        t ≤ sB.txStore.lastTxid wsid) :
    frameChangedCore env
        (handleMouseUpIfNeeded
          (genuineExternal env sB wid nf w.frame_monotonic w.info.sys_id me).1 me).1
        wid nf lastSeen false ck me
      = ((handleMouseUpIfNeeded
          (genuineExternal env sB wid nf w.frame_monotonic w.info.sys_id me).1 me).1,
         Output.empty, false) := by
  rcases genuineExternal_post env sB wid nf w.frame_monotonic w.info.sys_id me with
    ⟨he, hreason⟩ | ⟨hwupd, hrest⟩
  · rw [he]
    refine coreNoop_afterMouse env sB wid nf lastSeen false ck me me ?_ ?_ ?_ ?_
    · intro p hp3
      exact hnohit p hp3
    · intro w3 hw3 wsid hs r hr
      simp [hwin] at hw3
      subst hw3
      exact htgtB wsid hs r hr
    · intro h
      simp at h
    · intro _ w3 hw3
      simp [hwin] at hw3
      subst hw3
      rcases hreason with h | h
      · exact Or.inl (h w hwin)
      · exact Or.inr h
  · rcases hrest with ⟨htx, hpb⟩ | ⟨wsid0, tgt2, hmd2, ⟨w2, hw2, hsys2⟩, htx, hpb⟩
    · refine coreNoop_afterMouse env _ wid nf lastSeen false ck me me ?_ ?_ ?_ ?_
      · intro p hp3
        rw [hpb] at hp3
        exact hnohit p hp3
      · intro w3 hw3 wsid hs r hr
        rw [hwupd, lookupA_updateA_self, hwin] at hw3
        simp at hw3
        subst hw3
        rcases htx with htx | ⟨j, htx⟩
        · rw [htx] at hr
          exact htgtB wsid hs r hr
        · rw [htx] at hr
          exact lookupA_removeA_target_none sB.txStore j wsid (htgtB wsid hs) r hr
      · intro h
        simp at h
      · intro _ w3 hw3
        rw [hwupd, lookupA_updateA_self, hwin] at hw3
        simp at hw3
        subst hw3
        exact Or.inl (sameAs_refl nf)
    · have hech2 : ∀ t, lastSeen = some t → ∀ wsid, w.info.sys_id = some wsid →
          t ≤ sB.txStore.lastTxid wsid := by
        rcases hech with h | h
        · cases h.symm.trans hmd2
        · exact h
      have hw2e : w2 = { w with frame_monotonic := nf } := by
        simp [Reactor.setFrame, lookupA_updateA_self, hwin] at hw2
        exact hw2.symm
      have hsys0 : w.info.sys_id = some wsid0 := by
        rw [hw2e] at hsys2
        exact hsys2
      refine coreNoop_afterMouse env _ wid nf lastSeen false ck me me ?_ ?_ ?_ ?_
      · intro p hp3
        rw [hpb, lookupA_insertA_self] at hp3
        cases hp3
        intro heq
        exact Nat.not_succ_le_self _ (hech2 _ heq wsid0 hsys0)
      · intro w3 hw3 wsid hs r hr
        rw [hwupd, lookupA_updateA_self, hwin] at hw3
        simp at hw3
        subst hw3
        have hws : wsid = wsid0 := by
          have h2 := hsys0.symm.trans hs
          exact (Option.some.injEq _ _ ▸ h2).symm
        subst hws
        rw [htx, lookupA_insertA_self] at hr
        cases hr
        rfl
      · intro h
        simp at h
      · intro _ w3 hw3
        rw [hwupd, lookupA_updateA_self, hwin] at hw3
        simp at hw3
        subst hw3
        exact Or.inl (sameAs_refl nf)

theorem genuineExternal_second_noop_noTx (env : Env) (sB : Reactor)
    (wid : WindowId) (nf : CGRect) (ck : FrameChangeKind)
    (me : Option MouseState) (w : WindowState)
    (hwin : lookupA sB.windows wid = some w) :
    frameChangedCore env
        (handleMouseUpIfNeeded
          (genuineExternal env sB wid nf w.frame_monotonic w.info.sys_id me).1 me).1
        wid nf none false ck me
      = ((handleMouseUpIfNeeded
          (genuineExternal env sB wid nf w.frame_monotonic w.info.sys_id me).1 me).1,
         Output.empty, false) := by
  rcases genuineExternal_post env sB wid nf w.frame_monotonic w.info.sys_id me with
    ⟨he, hreason⟩ | ⟨hwupd, _⟩
  · rw [he]
    refine coreNoopN2_afterMouse env sB wid nf ck me me ?_
    intro w3 hw3
    simp [hwin] at hw3
    subst hw3
    rcases hreason with h | h
    · exact Or.inl (h w hwin)
    · exact Or.inr h
  · refine coreNoopN2_afterMouse env _ wid nf ck me me ?_
    intro w3 hw3
    rw [hwupd, lookupA_updateA_self, hwin] at hw3
    simp at hw3
    subst hw3
    exact Or.inl (sameAs_refl nf)

theorem requested_second_noop (env : Env) (sB : Reactor) (wid : WindowId)
    (nf : CGRect) (lastSeen : Option TransactionId) (ck : FrameChangeKind)
    (me : Option MouseState) (w : WindowState)
    (hwin : lookupA sB.windows wid = some w)
    (hnohit : ∀ p, lookupA sB.constraintProbes wid = some p →
      lastSeen ≠ some p.txid)
    (hpt : (w.info.sys_id.bind (fun wsid =>
      (sB.txStore.get wsid).bind (fun r => r.target.map (fun t => (wsid, t)))))
        = none ∨ lastSeen = none) :
    frameChangedCore env
        (handleMouseUpIfNeeded
          (afterProbe env sB wid nf lastSeen true ck me w.info.sys_id
            w.frame_monotonic).1 me).1
        wid nf lastSeen true ck me
      = ((handleMouseUpIfNeeded
          (afterProbe env sB wid nf lastSeen true ck me w.info.sys_id
            w.frame_monotonic).1 me).1,
         Output.empty, false) := by
  obtain ⟨hpp, hww, htw, _⟩ := afterProbe_requested_post env sB wid nf lastSeen ck
    me w.info.sys_id w.frame_monotonic hpt
  refine coreNoop_afterMouse env _ wid nf lastSeen true ck me me ?_ ?_ ?_ ?_
  · intro p hp3
    rw [hpp] at hp3
    exact hnohit p hp3
  · intro w3 hw3 wsid hs r hr
    rcases hww with ⟨hwsame, _⟩ | hwupd
    · rw [hwsame, hwin] at hw3
      cases hw3
      have hs2 : w.info.sys_id = some wsid := hs
      rw [htw wsid hs2] at hr
      cases hr
    · rw [hwupd, lookupA_updateA_self, hwin] at hw3
      simp at hw3
      subst hw3
      have hs2 : w.info.sys_id = some wsid := hs
      rw [htw wsid hs2] at hr
      cases hr
  · intro _ w3 hw3
    rcases hww with ⟨hwsame, hfact⟩ | hwupd
    · rw [hwsame, hwin] at hw3
      cases hw3
      refine ⟨hfact w hwin, fun wsid hs => ?_⟩
      have hs2 : w.info.sys_id = some wsid := hs
      exact htw wsid hs2
    · rw [hwupd, lookupA_updateA_self, hwin] at hw3
      simp at hw3
      subst hw3
      refine ⟨sameAs_refl nf, fun wsid hs => ?_⟩
      have hs2 : w.info.sys_id = some wsid := hs
      exact htw wsid hs2
  · intro h
    simp at h

theorem triggered_second_noop (env : Env) (s : Reactor) (wid : WindowId)
    (nf tgt : CGRect) (t : TransactionId) (requested : Bool)
    (ck : FrameChangeKind) (me : Option MouseState) (w : WindowState)
    (wsid : WindowServerId)
    (hwin : lookupA s.windows wid = some w)
    (hsid : w.info.sys_id = some wsid)
    (hmc : env.missionControlActive = false)
    (hcs : wsid ∉ env.changingScreens)
    (hnohit : ∀ p, lookupA s.constraintProbes wid = some p →
      (some t : Option TransactionId) ≠ some p.txid)
    (hrec : lookupA s.txStore wsid = some { txid := t, target := some tgt })
    (hmdf : me ≠ some MouseState.down) :
    frameChangedCore env
        (handleMouseUpIfNeeded
          (triggeredBranch env s wid nf ck w.info.sys_id (some (wsid, tgt))).1 me).1
        wid nf (some t) requested ck me
      = ((handleMouseUpIfNeeded
          (triggeredBranch env s wid nf ck w.info.sys_id (some (wsid, tgt))).1 me).1,
         Output.empty, false) := by
  by_cases hnm : CGRect.sameAs nf tgt = true
  · by_cases hsame : CGRect.sameAs w.frame_monotonic nf = true
    · have h3 : triggeredBranch env s wid nf ck w.info.sys_id (some (wsid, tgt))
          = ({ s with txStore := removeA s.txStore wsid }, Output.empty, false) := by
        simp [triggeredBranch, hwin, hnm, hsame, WindowTxStore.remove]
      simp only [h3]
      refine coreNoop_afterMouse env _ wid nf (some t) requested ck me me
        ?_ ?_ ?_ ?_
      · intro p hp3
        exact hnohit p hp3
      · intro w3 hw3 wsid2 hs r2 hr2
        have hw3a : lookupA s.windows wid = some w3 := hw3
        simp [hwin] at hw3a
        subst hw3a
        have hs2 : w.info.sys_id = some wsid2 := hs
        rw [hsid] at hs2
        cases hs2
        have hr2a : lookupA (removeA s.txStore wsid) wsid = some r2 := hr2
        rw [lookupA_removeA_self] at hr2a
        cases hr2a
      · intro _ w3 hw3
        have hw3a : lookupA s.windows wid = some w3 := hw3
        simp [hwin] at hw3a
        subst hw3a
        refine ⟨hsame, fun wsid2 hs => ?_⟩
        have hs2 : w.info.sys_id = some wsid2 := hs
        rw [hsid] at hs2
        cases hs2
        exact lookupA_removeA_self s.txStore wsid
      · intro _ w3 hw3
        have hw3a : lookupA s.windows wid = some w3 := hw3
        simp [hwin] at hw3a
        subst hw3a
        exact Or.inl hsame
    · have hsf := Bool.eq_false_iff.mpr hsame
      have h3 : triggeredBranch env s wid nf ck w.info.sys_id (some (wsid, tgt))
          = ({ s with
               windows := updateA (fun w2 => { w2 with frame_monotonic := nf })
                 s.windows wid,
               txStore := removeA s.txStore wsid }, Output.empty, false) := by
        simp [triggeredBranch, Reactor.setFrame, hwin, hnm, hsf,
          WindowTxStore.remove]
      simp only [h3]
      refine coreNoop_afterMouse env _ wid nf (some t) requested ck me me
        ?_ ?_ ?_ ?_
      · intro p hp3
        exact hnohit p hp3
      · intro w3 hw3 wsid2 hs r2 hr2
        have hw3a : lookupA (updateA (fun w2 => { w2 with frame_monotonic := nf })
            s.windows wid) wid = some w3 := hw3
        rw [lookupA_updateA_self, hwin] at hw3a
        simp at hw3a
        subst hw3a
        have hs2 : w.info.sys_id = some wsid2 := hs
        rw [hsid] at hs2
        cases hs2
        have hr2a : lookupA (removeA s.txStore wsid) wsid = some r2 := hr2
        rw [lookupA_removeA_self] at hr2a
        cases hr2a
      · intro _ w3 hw3
        have hw3a : lookupA (updateA (fun w2 => { w2 with frame_monotonic := nf })
            s.windows wid) wid = some w3 := hw3
        rw [lookupA_updateA_self, hwin] at hw3a
        simp at hw3a
        subst hw3a
        refine ⟨sameAs_refl nf, fun wsid2 hs => ?_⟩
        have hs2 : w.info.sys_id = some wsid2 := hs
        rw [hsid] at hs2
        cases hs2
        exact lookupA_removeA_self s.txStore wsid
      · intro _ w3 hw3
        have hw3a : lookupA (updateA (fun w2 => { w2 with frame_monotonic := nf })
            s.windows wid) wid = some w3 := hw3
        rw [lookupA_updateA_self, hwin] at hw3a
        simp at hw3a
        subst hw3a
        exact Or.inl (sameAs_refl nf)
  · have hnmf := Bool.eq_false_iff.mpr hnm
    by_cases hrsz : (ck == FrameChangeKind.resize
        && !CGSize.sameAs nf.size tgt.size) = true
    · have h3 : ∃ C,
          (triggeredBranch env s wid nf ck w.info.sys_id (some (wsid, tgt))).1
            = { s with
                windows := updateA (fun w2 => { w2 with frame_monotonic := nf })
                  s.windows wid,
                txStore := removeA s.txStore wsid,
                constraints := C } := by
        by_cases hom : CGPoint.sameAs nf.origin tgt.origin = true
        · refine ⟨insertA s.constraints wid
            (mergeConstraints (lookupA s.constraints wid)
              (inferConstraintFromTarget nf tgt)), ?_⟩
          by_cases hex : (lookupA s.constraints wid
              == some (mergeConstraints (lookupA s.constraints wid)
                (inferConstraintFromTarget nf tgt))) = true
          · simp [triggeredBranch, Reactor.setFrame, hwin, hnmf, hrsz, hom, hex,
              WindowTxStore.remove]
          · have hexf := Bool.eq_false_iff.mpr hex
            by_cases hact2 : (activeSpaceForWindow env nf w.info.sys_id).isSome
                = true
            · simp [triggeredBranch, Reactor.setFrame, hwin, hnmf, hrsz, hom,
                hexf, hact2, WindowTxStore.remove]
            · have hact2f := Bool.eq_false_iff.mpr hact2
              simp [triggeredBranch, Reactor.setFrame, hwin, hnmf, hrsz, hom,
                hexf, hact2f, WindowTxStore.remove]
        · have homf := Bool.eq_false_iff.mpr hom
          refine ⟨s.constraints, ?_⟩
          simp [triggeredBranch, Reactor.setFrame, hwin, hnmf, hrsz, homf,
            WindowTxStore.remove]
      obtain ⟨C, h3⟩ := h3
      simp only [h3]
      refine coreNoop_afterMouse env _ wid nf (some t) requested ck me me
        ?_ ?_ ?_ ?_
      · intro p hp3
        exact hnohit p hp3
      · intro w3 hw3 wsid2 hs r2 hr2
        have hw3a : lookupA (updateA (fun w2 => { w2 with frame_monotonic := nf })
            s.windows wid) wid = some w3 := hw3
        rw [lookupA_updateA_self, hwin] at hw3a
        simp at hw3a
        subst hw3a
        have hs2 : w.info.sys_id = some wsid2 := hs
        rw [hsid] at hs2
        cases hs2
        have hr2a : lookupA (removeA s.txStore wsid) wsid = some r2 := hr2
        rw [lookupA_removeA_self] at hr2a
        cases hr2a
      · intro _ w3 hw3
        have hw3a : lookupA (updateA (fun w2 => { w2 with frame_monotonic := nf })
            s.windows wid) wid = some w3 := hw3
        rw [lookupA_updateA_self, hwin] at hw3a
        simp at hw3a
        subst hw3a
        refine ⟨sameAs_refl nf, fun wsid2 hs => ?_⟩
        have hs2 : w.info.sys_id = some wsid2 := hs
        rw [hsid] at hs2
        cases hs2
        exact lookupA_removeA_self s.txStore wsid
      · intro _ w3 hw3
        have hw3a : lookupA (updateA (fun w2 => { w2 with frame_monotonic := nf })
            s.windows wid) wid = some w3 := hw3
        rw [lookupA_updateA_self, hwin] at hw3a
        simp at hw3a
        subst hw3a
        exact Or.inl (sameAs_refl nf)
    · have hrszf := Bool.eq_false_iff.mpr hrsz
      have h3 : triggeredBranch env s wid nf ck w.info.sys_id (some (wsid, tgt))
          = (s, Output.empty, false) := by
        simp [triggeredBranch, hwin, hnmf, hrszf]
      simp only [h3]
      obtain ⟨hfw, hft, hfp, _, _⟩ := handleMouseUpIfNeeded_preserves s me
      refine coreEval_intermediateSkip env _ wid w wsid t tgt nf requested ck me
        (by rw [hfw]; exact hwin) hsid hmc hcs ?_ (by rw [hft]; exact hrec)
        hmdf hnmf hrszf
      intro p hp3 heq
      rw [hfp] at hp3
      exact hnohit p hp3 (by rw [heq])

theorem core_second_noop (env : Env) (s : Reactor) (wid : WindowId)
    (nf : CGRect) (lastSeen : Option TransactionId) (requested : Bool)
    (ck : FrameChangeKind) (me : Option MouseState)
    (hecho : ∀ t, lastSeen = some t → ∀ w, lookupA s.windows wid = some w →
      ∀ wsid, w.info.sys_id = some wsid → t ≤ s.txStore.lastTxid wsid) :
    frameChangedCore env
        (handleMouseUpIfNeeded
          (frameChangedCore env s wid nf lastSeen requested ck me).1 me).1
        wid nf lastSeen requested ck me
      = ((handleMouseUpIfNeeded
          (frameChangedCore env s wid nf lastSeen requested ck me).1 me).1,
         Output.empty, false) := by
  rcases hwin : lookupA s.windows wid with _ | w
  · have h1 : frameChangedCore env s wid nf lastSeen requested ck me
        = (s, Output.empty, false) := by
      simp [frameChangedCore, hwin]
    simp only [h1]
    obtain ⟨hfw, _, _, _, _⟩ := handleMouseUpIfNeeded_preserves s me
    have hw2 : lookupA (handleMouseUpIfNeeded s me).1.windows wid = none := by
      rw [hfw]
      exact hwin
    simp [frameChangedCore, hw2]
  · by_cases hsup : (env.missionControlActive ||
        (match w.info.sys_id with
         | some wsid => env.changingScreens.contains wsid
         | none => false)) = true
    · have h1 := coreNoop_suppressed env s wid nf lastSeen requested ck me w
        hwin hsup
      simp only [h1]
      obtain ⟨hfw, _, _, _, _⟩ := handleMouseUpIfNeeded_preserves s me
      exact coreNoop_suppressed env _ wid nf lastSeen requested ck me w
        (by rw [hfw]; exact hwin) hsup
    · have hsupf := Bool.eq_false_iff.mpr hsup
      have hmc : env.missionControlActive = false := by
        rcases hx : env.missionControlActive
        · rfl
        · rw [hx] at hsupf
          simp at hsupf
      by_cases hhit : ∃ p t2, lookupA s.constraintProbes wid = some p ∧
          lastSeen = some t2 ∧ t2 = p.txid
      · -- a resolved probe echo: the probe is consumed, so the retry is inert
        obtain ⟨p, t2, hp, hls, hteq⟩ := hhit
        subst hteq
        subst hls
        rcases hsid : w.info.sys_id with _ | wsid0
        · have h1 : frameChangedCore env s wid nf (some p.txid) requested ck me
              = probeResolve env s wid nf none p := by
            simp [frameChangedCore, hwin, hsid, hmc, hp]
          have h2 : (probeResolve env s wid nf none p).1
              = { s.setFrame wid nf with
                  constraints := insertA s.constraints wid
                    (mergeConstraints (lookupA s.constraints wid)
                      (inferConstraintFromTarget nf p.target))
                  constraintProbes := removeA s.constraintProbes wid } := by
            rw [probeResolve_fst]
            rfl
          simp only [h1, h2]
          refine coreNoop_afterMouse env _ wid nf (some p.txid) requested ck me me
            ?_ ?_ ?_ ?_
          · intro p3 hp3
            have hp3a : lookupA (removeA s.constraintProbes wid) wid
                = some p3 := hp3
            rw [lookupA_removeA_self] at hp3a
            cases hp3a
          · intro w3 hw3 wsid2 hs r2 hr2
            have hw3a : lookupA (s.setFrame wid nf).windows wid = some w3 := hw3
            simp [Reactor.setFrame, lookupA_updateA_self, hwin] at hw3a
            subst hw3a
            have hs2 : w.info.sys_id = some wsid2 := hs
            rw [hsid] at hs2
            cases hs2
          · intro _ w3 hw3
            have hw3a : lookupA (s.setFrame wid nf).windows wid = some w3 := hw3
            simp [Reactor.setFrame, lookupA_updateA_self, hwin] at hw3a
            subst hw3a
            refine ⟨sameAs_refl nf, fun wsid2 hs => ?_⟩
            have hs2 : w.info.sys_id = some wsid2 := hs
            rw [hsid] at hs2
            cases hs2
          · intro _ w3 hw3
            have hw3a : lookupA (s.setFrame wid nf).windows wid = some w3 := hw3
            simp [Reactor.setFrame, lookupA_updateA_self, hwin] at hw3a
            subst hw3a
            exact Or.inl (sameAs_refl nf)
        · have hcs0 : wsid0 ∉ env.changingScreens := by
            intro hmem
            rw [hsid] at hsupf
            simp [hmc, hmem] at hsupf
          have h1 : frameChangedCore env s wid nf (some p.txid) requested ck me
              = probeResolve env s wid nf (some wsid0) p := by
            simp [frameChangedCore, hwin, hsid, hmc, hcs0, hp]
          have h2 : (probeResolve env s wid nf (some wsid0) p).1
              = { s.setFrame wid nf with
                  txStore := removeA s.txStore wsid0
                  constraints := insertA s.constraints wid
                    (mergeConstraints (lookupA s.constraints wid)
                      (inferConstraintFromTarget nf p.target))
                  constraintProbes := removeA s.constraintProbes wid } := by
            rw [probeResolve_fst]
          simp only [h1, h2]
          refine coreNoop_afterMouse env _ wid nf (some p.txid) requested ck me me
            ?_ ?_ ?_ ?_
          · intro p3 hp3
            have hp3a : lookupA (removeA s.constraintProbes wid) wid
                = some p3 := hp3
            rw [lookupA_removeA_self] at hp3a
            cases hp3a
          · intro w3 hw3 wsid2 hs r2 hr2
            have hw3a : lookupA (s.setFrame wid nf).windows wid = some w3 := hw3
            simp [Reactor.setFrame, lookupA_updateA_self, hwin] at hw3a
            subst hw3a
            have hs2 : w.info.sys_id = some wsid2 := hs
            rw [hsid] at hs2
            cases hs2
            have hr2a : lookupA (removeA s.txStore wsid0) wsid0 = some r2 := hr2
            rw [lookupA_removeA_self] at hr2a
            cases hr2a
          · intro _ w3 hw3
            have hw3a : lookupA (s.setFrame wid nf).windows wid = some w3 := hw3
            simp [Reactor.setFrame, lookupA_updateA_self, hwin] at hw3a
            subst hw3a
            refine ⟨sameAs_refl nf, fun wsid2 hs => ?_⟩
            have hs2 : w.info.sys_id = some wsid2 := hs
            rw [hsid] at hs2
            cases hs2
            exact lookupA_removeA_self s.txStore wsid0
          · intro _ w3 hw3
            have hw3a : lookupA (s.setFrame wid nf).windows wid = some w3 := hw3
            simp [Reactor.setFrame, lookupA_updateA_self, hwin] at hw3a
            subst hw3a
            exact Or.inl (sameAs_refl nf)
      · -- no probe echo: the notification falls through to afterProbe
        have hnohit : ∀ p, lookupA s.constraintProbes wid = some p →
            lastSeen ≠ some p.txid := by
          intro p hp heq
          exact hhit ⟨p, p.txid, hp, heq, rfl⟩
        rcases hsid : w.info.sys_id with _ | wsid
        · -- no window-server id: no pending transaction is possible
          have h1 : frameChangedCore env s wid nf lastSeen requested ck me
              = afterProbe env s wid nf lastSeen requested ck me w.info.sys_id
                  w.frame_monotonic := by
            rcases hp : lookupA s.constraintProbes wid with _ | p
            · rcases hls : lastSeen with _ | t3 <;>
                simp [frameChangedCore, hwin, hsid, hmc, hp, hls]
            · rcases hls : lastSeen with _ | t3
              · simp [frameChangedCore, hwin, hsid, hmc, hp, hls]
              · have hne : t3 ≠ p.txid := by
                  intro hh
                  exact hnohit p hp (by rw [hls, hh])
                simp [frameChangedCore, hwin, hsid, hmc, hp, hls, hne]
          simp only [h1]
          have hpt0 : ((w.info.sys_id).bind (fun wsid2 =>
              (s.txStore.get wsid2).bind
                (fun r2 => r2.target.map (fun t3 => (wsid2, t3))))) = none := by
            rw [hsid]
            rfl
          cases requested
          · have hg := afterProbe_genuine env s wid nf lastSeen ck me
              w.info.sys_id w.frame_monotonic hpt0
            simp only [hg]
            rcases hls : lastSeen with _ | t3
            · subst hls
              exact genuineExternal_second_noop_noTx env s wid nf ck me w hwin
            · subst hls
              refine genuineExternal_second_noop env s wid nf (some t3) ck me w
                hwin hnohit ?_ ?_
              · intro wsid2 hsw r2 hr2
                rw [hsid] at hsw
                cases hsw
              · refine Or.inr ?_
                intro t4 ht4 wsid2 hsw
                rw [hsid] at hsw
                cases hsw
          · exact requested_second_noop env s wid nf lastSeen ck me w hwin hnohit
              (Or.inl hpt0)
        · have hcs : wsid ∉ env.changingScreens := by
            intro hmem
            rw [hsid] at hsupf
            simp [hmc, hmem] at hsupf
          have h1 : frameChangedCore env s wid nf lastSeen requested ck me
              = afterProbe env s wid nf lastSeen requested ck me w.info.sys_id
                  w.frame_monotonic := by
            rcases hp : lookupA s.constraintProbes wid with _ | p
            · rcases hls : lastSeen with _ | t3 <;>
                simp [frameChangedCore, hwin, hsid, hmc, hcs, hp, hls]
            · rcases hls : lastSeen with _ | t3
              · simp [frameChangedCore, hwin, hsid, hmc, hcs, hp, hls]
              · have hne : t3 ≠ p.txid := by
                  intro hh
                  exact hnohit p hp (by rw [hls, hh])
                simp [frameChangedCore, hwin, hsid, hmc, hcs, hp, hls, hne]
          simp only [h1]
          rcases hr : lookupA s.txStore wsid with _ | r
          · -- no transaction record
            have hpt0 : ((w.info.sys_id).bind (fun wsid2 =>
                (s.txStore.get wsid2).bind
                  (fun r2 => r2.target.map (fun t3 => (wsid2, t3))))) = none := by
              rw [hsid]
              simp [WindowTxStore.get, hr]
            cases requested
            · have hg := afterProbe_genuine env s wid nf lastSeen ck me
                w.info.sys_id w.frame_monotonic hpt0
              simp only [hg]
              rcases hls : lastSeen with _ | t3
              · subst hls
                exact genuineExternal_second_noop_noTx env s wid nf ck me w hwin
              · subst hls
                refine genuineExternal_second_noop env s wid nf (some t3) ck me w
                  hwin hnohit ?_ ?_
                · intro wsid2 hsw r2 hr2
                  rw [hsid] at hsw
                  cases hsw
                  rw [hr] at hr2
                  cases hr2
                · refine Or.inr ?_
                  intro t4 ht4 wsid2 hsw
                  cases ht4
                  exact hecho t3 rfl w hwin wsid2 hsw
            · exact requested_second_noop env s wid nf lastSeen ck me w hwin
                hnohit (Or.inl hpt0)
          · obtain ⟨rtx, rtg⟩ := r
            rcases rtg with _ | tgt
            · -- a record whose target was already cleared
              have hpt0 : ((w.info.sys_id).bind (fun wsid2 =>
                  (s.txStore.get wsid2).bind
                    (fun r2 => r2.target.map (fun t3 => (wsid2, t3))))) = none := by
                rw [hsid]
                simp [WindowTxStore.get, hr]
              cases requested
              · have hg := afterProbe_genuine env s wid nf lastSeen ck me
                  w.info.sys_id w.frame_monotonic hpt0
                simp only [hg]
                rcases hls : lastSeen with _ | t3
                · subst hls
                  exact genuineExternal_second_noop_noTx env s wid nf ck me w hwin
                · subst hls
                  refine genuineExternal_second_noop env s wid nf (some t3) ck me
                    w hwin hnohit ?_ ?_
                  · intro wsid2 hsw r2 hr2
                    rw [hsid] at hsw
                    cases hsw
                    rw [hr] at hr2
                    cases hr2
                    rfl
                  · refine Or.inr ?_
                    intro t4 ht4 wsid2 hsw
                    cases ht4
                    exact hecho t3 rfl w hwin wsid2 hsw
              · exact requested_second_noop env s wid nf lastSeen ck me w hwin
                  hnohit (Or.inl hpt0)
            · -- a pending transaction target is stored
              rcases hls : lastSeen with _ | t3
              · subst hls
                cases requested
                · have hb : ∀ x : TransactionId,
                      ((none : Option TransactionId) == some x) = false :=
                    fun x => rfl
                  have hg : afterProbe env s wid nf none false ck me
                      w.info.sys_id w.frame_monotonic
                      = genuineExternal env s wid nf w.frame_monotonic
                          w.info.sys_id me := by
                    simp [afterProbe, hsid, WindowTxStore.get, hr, hb]
                  simp only [hg]
                  exact genuineExternal_second_noop_noTx env s wid nf ck me w hwin
                · exact requested_second_noop env s wid nf none ck me w hwin
                    hnohit (Or.inr rfl)
              · subst hls
                by_cases hts : t3 = rtx
                · have hr3 : lookupA s.txStore wsid
                      = some { txid := t3, target := some tgt } := by
                    rw [hts]
                    exact hr
                  by_cases hmd : (me == some MouseState.down) = true
                  · -- mouse-down override of the echo
                    cases requested
                    · have hg : afterProbe env s wid nf (some t3) false ck me
                          w.info.sys_id w.frame_monotonic
                          = genuineExternal env
                              { s with txStore := removeA s.txStore wsid } wid nf
                              w.frame_monotonic w.info.sys_id me := by
                        simp [afterProbe, hsid, WindowTxStore.get,
                          WindowTxStore.lastTxid, WindowTxStore.remove, hr3, hmd]
                      simp only [hg]
                      refine genuineExternal_second_noop env
                        ({ s with txStore := removeA s.txStore wsid }) wid nf
                        (some t3) ck me w hwin hnohit ?_ (Or.inl hmd)
                      intro wsid2 hsw r2 hr2
                      rw [hsid] at hsw
                      cases hsw
                      have hr2a : lookupA (removeA s.txStore wsid) wsid
                          = some r2 := hr2
                      rw [lookupA_removeA_self] at hr2a
                      cases hr2a
                    · have hg : afterProbe env s wid nf (some t3) true ck me
                          w.info.sys_id w.frame_monotonic
                          = afterProbe env
                              { s with txStore := removeA s.txStore wsid } wid nf
                              (some t3) true ck me w.info.sys_id
                              w.frame_monotonic := by
                        simp [afterProbe, hsid, WindowTxStore.get,
                          WindowTxStore.lastTxid, WindowTxStore.remove, hr3, hmd,
                          lookupA_removeA_self, hwin]
                      simp only [hg]
                      exact requested_second_noop env
                        ({ s with txStore := removeA s.txStore wsid }) wid nf
                        (some t3) ck me w hwin hnohit
                        (Or.inl (by
                          rw [hsid]
                          simp [WindowTxStore.get, WindowTxStore.remove,
                            lookupA_removeA_self]))
                  · -- the self-triggered reconciliation branch
                    have hmdf : me ≠ some MouseState.down := by
                      intro hh
                      rw [hh] at hmd
                      simp at hmd
                    have hmdb : (me == some MouseState.down) = false :=
                      Bool.eq_false_iff.mpr hmd
                    have h2 : afterProbe env s wid nf (some t3) requested ck me
                        w.info.sys_id w.frame_monotonic
                        = triggeredBranch env s wid nf ck w.info.sys_id
                            (some (wsid, tgt)) := by
                      simp [afterProbe, hsid, WindowTxStore.get,
                        WindowTxStore.lastTxid, hr3, hmdb]
                    simp only [h2]
                    exact triggered_second_noop env s wid nf tgt t3 requested ck
                      me w wsid hwin hsid hmc hcs hnohit hr3 hmdf
                · -- a stale echo: last_seen differs from the last sent txid
                  have h2 : afterProbe env s wid nf (some t3) requested ck me
                      w.info.sys_id w.frame_monotonic
                      = (s, Output.empty, false) := by
                    simp [afterProbe, hsid, WindowTxStore.get,
                      WindowTxStore.lastTxid, hr, hts]
                  simp only [h2]
                  obtain ⟨hfw, hft, hfp, _, _⟩ :=
                    handleMouseUpIfNeeded_preserves s me
                  refine coreEval_staleEcho env _ wid w wsid t3 rtx tgt nf
                    requested ck me (by rw [hfw]; exact hwin) hsid hmc hcs ?_
                    (by rw [hft]; exact hr) hts
                  intro p3 hp3 heq
                  rw [hfp] at hp3
                  exact hnohit p3 hp3 (by rw [heq])

/-! ### Claim theorems -/

/-- Claim C2, counterexample: interleaving `WindowTxStore::remove`
between two `next_txid` calls on the same id resets the sequence — the
id issued after the remove equals (and so does not compare greater than)
the id issued before it, exactly as the source's own test
`remove_purges_txid_state` asserts. -/
theorem c2_remove_resets_counterexample :
    (WindowTxStore.nextTxid ([] : WindowTxStore) 7).1 = 1 ∧
    ((WindowTxStore.remove (WindowTxStore.nextTxid ([] : WindowTxStore) 7).2 7).nextTxid 7).1 = 1 ∧
    ¬ (WindowTxStore.nextTxid ([] : WindowTxStore) 7).1 <
        ((WindowTxStore.remove (WindowTxStore.nextTxid ([] : WindowTxStore) 7).2 7).nextTxid 7).1 := by
  decide

/-- Claim C2 (amended): for a fixed ExternalWindowId, the ids issued by
`WindowTxStore::next_txid` are strictly monotonically increasing — every
id issued later compares greater — across any interleaving of
`clear_target`, of `insert`/`set_last_txid` calls passing the currently
stored last txid (the reactor's own usage), and of arbitrary store
operations on other ids; every issued id also exceeds the default, which
means no transaction issued yet.  `remove` purges the record and
restarts the sequence from the default, so ids issued after a remove can
repeat earlier ones. -/
theorem c2_next_txid_strictly_monotonic (s : WindowTxStore) (i : WindowServerId)
    (ops : List TxOp) (hops : ∀ op ∈ ops, op.safeFor i) :
    TransactionId.default < (s.nextTxid i).1 ∧
    (s.nextTxid i).1 <
      ((TxOp.runOps i (s.nextTxid i).2 ops).nextTxid i).1 := by
  have h1 := lastTxid_nextTxid s i
  have h2 := lastTxid_runOps i ops (s.nextTxid i).2 hops
  have h3 := lastTxid_nextTxid (TxOp.runOps i (s.nextTxid i).2 ops) i
  constructor
  · rw [h1.1]
    simp [TransactionId.default]
  · rw [h1.1, h3.1, h2, h1.2]
    exact Nat.lt_succ_self _

/-- Claim C2, witness for the amended statement at a concrete store, id
and interleaving. -/
theorem c2_next_txid_strictly_monotonic_witness :
    TransactionId.default < (WindowTxStore.nextTxid ([] : WindowTxStore) 7).1 ∧
    (WindowTxStore.nextTxid ([] : WindowTxStore) 7).1 <
      ((TxOp.runOps 7 (WindowTxStore.nextTxid ([] : WindowTxStore) 7).2
        [TxOp.clearTargetCur, TxOp.otherRemove 3]).nextTxid 7).1 :=
  c2_next_txid_strictly_monotonic ([] : WindowTxStore) 7
    [TxOp.clearTargetCur, TxOp.otherRemove 3]
    (by
      intro op hop
      rcases List.mem_cons.1 hop with h | h
      · subst h; trivial
      · rcases List.mem_cons.1 h with h2 | h2
        · subst h2; exact (by decide : (3 : ℕ) ≠ 7)
        · cases h2)

/-- Claim C6: `infer_constraint_from_target` computes each axis (width,
height) independently; per axis the cap is `none` when
`|observed − target| ≤ 0.1`, `some observed` when the observed value
falls short of the target beyond that tolerance, and `none` when the
observed value exceeds the target. -/
theorem c6_infer_constraint_axes (nf t : CGRect) :
    ((|nf.size.width - t.size.width| ≤ 1/10 →
        (inferConstraintFromTarget nf t).max_w = none) ∧
     (¬ |nf.size.width - t.size.width| ≤ 1/10 → nf.size.width < t.size.width →
        (inferConstraintFromTarget nf t).max_w = some nf.size.width) ∧
     (¬ |nf.size.width - t.size.width| ≤ 1/10 → t.size.width < nf.size.width →
        (inferConstraintFromTarget nf t).max_w = none)) ∧
    ((|nf.size.height - t.size.height| ≤ 1/10 →
        (inferConstraintFromTarget nf t).max_h = none) ∧
     (¬ |nf.size.height - t.size.height| ≤ 1/10 → nf.size.height < t.size.height →
        (inferConstraintFromTarget nf t).max_h = some nf.size.height) ∧
     (¬ |nf.size.height - t.size.height| ≤ 1/10 → t.size.height < nf.size.height →
        (inferConstraintFromTarget nf t).max_h = none)) ∧
    (∀ nf2 t2 : CGRect, nf2.size.width = nf.size.width → t2.size.width = t.size.width →
      (inferConstraintFromTarget nf2 t2).max_w = (inferConstraintFromTarget nf t).max_w) ∧
    (∀ nf2 t2 : CGRect, nf2.size.height = nf.size.height → t2.size.height = t.size.height →
      (inferConstraintFromTarget nf2 t2).max_h = (inferConstraintFromTarget nf t).max_h) := by
  refine ⟨⟨?_, ?_, ?_⟩, ⟨?_, ?_, ?_⟩, ?_, ?_⟩
  · intro h
    have hb : Rat.isWithin nf.size.width (10⁻¹) t.size.width = true := by
      simpa [Rat.isWithin, absQ_eq_abs] using h
    simp [inferConstraintFromTarget, hb]
  · intro h hlt
    have hb : Rat.isWithin nf.size.width (10⁻¹) t.size.width = false := by
      simpa [Rat.isWithin, absQ_eq_abs] using h
    simp [inferConstraintFromTarget, hb, hlt]
  · intro h hlt
    have hb : Rat.isWithin nf.size.width (10⁻¹) t.size.width = false := by
      simpa [Rat.isWithin, absQ_eq_abs] using h
    simp [inferConstraintFromTarget, hb, lt_asymm hlt]
  · intro h
    have hb : Rat.isWithin nf.size.height (10⁻¹) t.size.height = true := by
      simpa [Rat.isWithin, absQ_eq_abs] using h
    simp [inferConstraintFromTarget, hb]
  · intro h hlt
    have hb : Rat.isWithin nf.size.height (10⁻¹) t.size.height = false := by
      simpa [Rat.isWithin, absQ_eq_abs] using h
    simp [inferConstraintFromTarget, hb, hlt]
  · intro h hlt
    have hb : Rat.isWithin nf.size.height (10⁻¹) t.size.height = false := by
      simpa [Rat.isWithin, absQ_eq_abs] using h
    simp [inferConstraintFromTarget, hb, lt_asymm hlt]
  · intro nf2 t2 hw ht
    simp [inferConstraintFromTarget, hw, ht]
  · intro nf2 t2 hw ht
    simp [inferConstraintFromTarget, hw, ht]

/-- Claim C6, witness at concrete frames: observed 30x200 against
target 50x200: the width is capped at 30, the height is within
tolerance and unconstrained. -/
theorem c6_infer_constraint_axes_witness :
    (inferConstraintFromTarget (mkRect 0 0 30 200) (mkRect 0 0 50 200)).max_w = some 30 ∧
    (inferConstraintFromTarget (mkRect 0 0 30 200) (mkRect 0 0 50 200)).max_h = none :=
  ⟨(c6_infer_constraint_axes (mkRect 0 0 30 200) (mkRect 0 0 50 200)).1.2.1
      (by norm_num [mkRect]) (by norm_num [mkRect]),
   (c6_infer_constraint_axes (mkRect 0 0 30 200) (mkRect 0 0 50 200)).2.1.1
      (by norm_num [mkRect])⟩

/-- Claim C7: `merge_constraints` takes, per axis, the min of both caps
when both are present, else whichever is present, else none; merging is
monotone tightening (a merged cap never exceeds an existing cap), and
two sequential probes yielding caps c1 then c2 on an axis leave exactly
min c1 c2 stored. -/
theorem c7_merge_constraints_tightening :
    (∀ a b : ℚ, mergeAxis (some a) (some b) = some (min a b)) ∧
    (∀ a : ℚ, mergeAxis (some a) none = some a) ∧
    (∀ b : ℚ, mergeAxis none (some b) = some b) ∧
    mergeAxis none none = none ∧
    (∀ (e i : WindowConstraint) (a : ℚ), e.max_w = some a →
      ∃ b, (mergeConstraints (some e) i).max_w = some b ∧ b ≤ a) ∧
    (∀ (e i : WindowConstraint) (a : ℚ), e.max_h = some a →
      ∃ b, (mergeConstraints (some e) i).max_h = some b ∧ b ≤ a) ∧
    (∀ c1 c2 : ℚ,
      (mergeConstraints
        (some (mergeConstraints none { max_w := some c1, max_h := none }))
        { max_w := some c2, max_h := none }).max_w = some (min c1 c2)) := by
  refine ⟨fun a b => rfl, fun a => rfl, fun b => rfl, rfl, ?_, ?_, fun c1 c2 => rfl⟩
  · intro e i a h
    cases hi : i.max_w with
    | none => exact ⟨a, by simp [mergeConstraints, mergeAxis, h, hi], le_refl a⟩
    | some b =>
      exact ⟨min a b, by simp [mergeConstraints, mergeAxis, h, hi], min_le_left a b⟩
  · intro e i a h
    cases hi : i.max_h with
    | none => exact ⟨a, by simp [mergeConstraints, mergeAxis, h, hi], le_refl a⟩
    | some b =>
      exact ⟨min a b, by simp [mergeConstraints, mergeAxis, h, hi], min_le_left a b⟩

/-- Claim C7, witness: a stored cap of 5 merged with an inferred cap of
3 tightens to some value not exceeding 5. -/
theorem c7_merge_constraints_tightening_witness :
    ({ max_w := some 5, max_h := none } : WindowConstraint).max_w = some 5 ∧
    ∃ b, (mergeConstraints (some { max_w := some 5, max_h := none })
        { max_w := some 3, max_h := some 2 }).max_w = some b ∧ b ≤ 5 :=
  ⟨rfl,
   c7_merge_constraints_tightening.2.2.2.2.1
     { max_w := some 5, max_h := none } { max_w := some 3, max_h := some 2 } 5 rfl⟩

/-- The drag state references a window as the dragged window or as the
pending swap target. -/
def DragState.references (d : DragState) (wid : WindowId) : Prop :=
  match d with
  | DragState.inactive => False
  | DragState.active sess => sess.window = wid
  | DragState.pendingSwap sess t => sess.window = wid ∨ t = wid

theorem dragTeardownOnDestroy_probes (s : Reactor) (wid : WindowId) :
    (dragTeardownOnDestroy s wid).constraintProbes = s.constraintProbes := by
  simp only [dragTeardownOnDestroy]
  repeat' split
  all_goals rfl

theorem dragTeardownOnDestroy_drag (s : Reactor) (wid : WindowId)
    (href : s.dragState.references wid) :
    (dragTeardownOnDestroy s wid).dragState = DragState.inactive := by
  simp only [dragTeardownOnDestroy]
  cases hd : s.dragState with
  | inactive =>
    rw [hd] at href
    exact absurd href (by simp [DragState.references])
  | active sess =>
    rw [hd] at href
    have hw2 : sess.window = wid := href
    simp only [hd, Reactor.dragged, hw2]
    repeat' split
    all_goals simp_all
  | pendingSwap sess t =>
    rw [hd] at href
    have hor : sess.window = wid ∨ t = wid := href
    simp only [hd, Reactor.dragged]
    rcases hor with hw2 | ht2
    · repeat' split
      all_goals simp_all
    · repeat' split
      all_goals simp_all

/-- Claim C9: `handle_window_destroyed` removes any constraint probe
registered for the destroyed window and, whenever the drag state is
Active or PendingSwap with that window as the dragged window or as the
swap target, resets the drag state to Inactive — synchronously within
the same event-processing step. -/
theorem c9_destroyed_cancels_probe_and_drag (s : Reactor) (wid : WindowId)
    (w : WindowState) (h : lookupA s.windows wid = some w) :
    lookupA (handleWindowDestroyed s wid).1.constraintProbes wid = none ∧
    (s.dragState.references wid →
      (handleWindowDestroyed s wid).1.dragState = DragState.inactive) := by
  constructor
  · simp only [handleWindowDestroyed, h]
    cases w.info.sys_id <;>
      simp [dragTeardownOnDestroy_probes, lookupA_removeA_self]
  · intro href
    simp only [handleWindowDestroyed, h]
    cases w.info.sys_id <;>
      exact dragTeardownOnDestroy_drag _ wid href

/-- Claim C9, witness at the concrete reactor `reactorC`, whose drag
state actively drags `widC` and which has a probe registered for it. -/
theorem c9_destroyed_cancels_probe_and_drag_witness :
    lookupA reactorC.windows widC = some winC ∧
    reactorC.dragState.references widC ∧
    lookupA (handleWindowDestroyed reactorC widC).1.constraintProbes widC = none ∧
    (handleWindowDestroyed reactorC widC).1.dragState = DragState.inactive := by
  have hthm := c9_destroyed_cancels_probe_and_drag reactorC widC winC rfl
  exact ⟨rfl, rfl, hthm.1, hthm.2 rfl⟩

/-- Claim C1, counterexample: a window with a pending transaction
target (last sent txid 2) receives a notification carrying
last_seen_txid 1, which differs from the last sent txid — yet, because
a registered constraint probe still carries txid 1, the probe-resolution
branch (window.rs lines 217-244) runs first and mutates frame_monotonic,
the transaction record and the probe registry. -/
theorem c1_stale_echo_counterexample :
    WindowTxStore.lastTxid reactorP.txStore 1 = 2 ∧
    (lookupA reactorP.txStore 1).bind (fun r => r.target) = some (mkRect 0 0 50 50) ∧
    lookupA (handleWindowFrameChanged envW reactorP widC (mkRect 5 5 80 80)
      (some 1) false FrameChangeKind.move (some MouseState.up)).1.windows widC
        = some { winC with frame_monotonic := mkRect 5 5 80 80 } ∧
    winC.frame_monotonic ≠ mkRect 5 5 80 80 ∧
    lookupA (handleWindowFrameChanged envW reactorP widC (mkRect 5 5 80 80)
      (some 1) false FrameChangeKind.move (some MouseState.up)).1.txStore 1 = none ∧
    lookupA (handleWindowFrameChanged envW reactorP widC (mkRect 5 5 80 80)
      (some 1) false FrameChangeKind.move (some MouseState.up)).1.constraintProbes widC
        = none := by
  with_unfolding_all decide

/-- Claim C1 (amended): for every window with a pending transaction
target whose notification carries a last_seen_txid that is present but
differs from the last sent txid, and for which no registered constraint
probe carries that last_seen_txid, handle_window_frame_changed ignores
the event: the window table, the transaction store and the
constraint-probe registry are all unchanged and no layout event is
emitted.  A provably stale echo can reach a mutating path only through
probe resolution, when it matches an in-flight probe's txid. -/
theorem c1_stale_echo_ignored (env : Env) (s : Reactor) (wid : WindowId)
    (w : WindowState) (wsid : WindowServerId) (tx rtx : TransactionId)
    (tgt newFrame : CGRect) (requested : Bool) (ck : FrameChangeKind)
    (ms : Option MouseState)
    (hw : lookupA s.windows wid = some w)
    (hsys : w.info.sys_id = some wsid)
    (hmc : env.missionControlActive = false)
    (hcs : wsid ∉ env.changingScreens)
    (hprobe : ∀ p, lookupA s.constraintProbes wid = some p → p.txid ≠ tx)
    (hrec : lookupA s.txStore wsid = some { txid := rtx, target := some tgt })
    (ht : tx ≠ rtx) :
    (handleWindowFrameChanged env s wid newFrame (some tx) requested ck ms).1.windows
      = s.windows ∧
    (handleWindowFrameChanged env s wid newFrame (some tx) requested ck ms).1.txStore
      = s.txStore ∧
    (handleWindowFrameChanged env s wid newFrame (some tx) requested ck ms).1.constraintProbes
      = s.constraintProbes ∧
    (handleWindowFrameChanged env s wid newFrame (some tx) requested ck ms).2.1.events
      = [] := by
  have hcore := coreEval_staleEcho env s wid w wsid tx rtx tgt newFrame requested ck
    (mouseEffective env ms) hw hsys hmc hcs hprobe hrec ht
  have hT := handleMouseUpIfNeeded_preserves s (mouseEffective env ms)
  simp only [handleWindowFrameChanged, hcore]
  exact ⟨hT.1, hT.2.1, hT.2.2.1, by simp [Output.append, Output.empty, hT.2.2.2.2]⟩

/-- Claim C1, witness for the amended statement: a stale echo (txid 1
against last sent txid 2) with no matching probe leaves the state
untouched. -/
theorem c1_stale_echo_ignored_witness :
    (handleWindowFrameChanged envW reactorS widC (mkRect 5 5 80 80)
      (some 1) false FrameChangeKind.move (some MouseState.up)).1.windows
        = reactorS.windows ∧
    (handleWindowFrameChanged envW reactorS widC (mkRect 5 5 80 80)
      (some 1) false FrameChangeKind.move (some MouseState.up)).1.txStore
        = reactorS.txStore ∧
    (handleWindowFrameChanged envW reactorS widC (mkRect 5 5 80 80)
      (some 1) false FrameChangeKind.move (some MouseState.up)).1.constraintProbes
        = reactorS.constraintProbes ∧
    (handleWindowFrameChanged envW reactorS widC (mkRect 5 5 80 80)
      (some 1) false FrameChangeKind.move (some MouseState.up)).2.1.events = [] :=
  c1_stale_echo_ignored envW reactorS widC winC 1 1 2 (mkRect 0 0 50 50)
    (mkRect 5 5 80 80) false FrameChangeKind.move (some MouseState.up)
    rfl rfl rfl (by simp [envW])
    (by intro p hp; simp [reactorS, reactorP, reactorC, lookupA] at hp)
    rfl (by decide)

/-- Claim C3, counterexample: in the self-triggered branch, a resize
whose size differs from the target beyond tolerance and whose origin
does not yet match the target's origin is dropped only after the code
has already committed new_frame into frame_monotonic and removed the
transaction record (window.rs lines 286-288). -/
theorem c3_intermediate_resize_counterexample :
    CGRect.sameAs (mkRect 10 10 70 70) (mkRect 0 0 50 50) = false ∧
    CGSize.sameAs (mkRect 10 10 70 70).size (mkRect 0 0 50 50).size = false ∧
    CGPoint.sameAs (mkRect 10 10 70 70).origin (mkRect 0 0 50 50).origin = false ∧
    lookupA reactorT.txStore 1 = some { txid := 1, target := some (mkRect 0 0 50 50) } ∧
    lookupA (handleWindowFrameChanged envW reactorT widC (mkRect 10 10 70 70)
      (some 1) false FrameChangeKind.resize (some MouseState.up)).1.windows widC
        = some { winC with frame_monotonic := mkRect 10 10 70 70 } ∧
    winC.frame_monotonic ≠ mkRect 10 10 70 70 ∧
    lookupA (handleWindowFrameChanged envW reactorT widC (mkRect 10 10 70 70)
      (some 1) false FrameChangeKind.resize (some MouseState.up)).1.txStore 1 = none := by
  with_unfolding_all decide

/-- Claim C3 (amended): in the self-triggered reconciliation branch,
when the change is a resize whose size differs from the target beyond
tolerance but whose origin does not yet match the target's origin,
handle_window_frame_changed commits new_frame into frame_monotonic and
removes the pending transaction record, but infers and applies no
constraint, emits no layout event, and stops there (returning false to
await the next notification). -/
theorem c3_intermediate_resize_commits (env : Env) (s : Reactor) (wid : WindowId)
    (w : WindowState) (wsid : WindowServerId) (tx : TransactionId)
    (target newFrame : CGRect) (requested : Bool) (ms : Option MouseState)
    (hw : lookupA s.windows wid = some w)
    (hsys : w.info.sys_id = some wsid)
    (hmc : env.missionControlActive = false)
    (hcs : wsid ∉ env.changingScreens)
    (hprobe : ∀ p, lookupA s.constraintProbes wid = some p → p.txid ≠ tx)
    (hrec : lookupA s.txStore wsid = some { txid := tx, target := some target })
    (hm : mouseEffective env ms ≠ some MouseState.down)
    (hnei : CGRect.sameAs newFrame target = false)
    (hsize : CGSize.sameAs newFrame.size target.size = false)
    (horig : CGPoint.sameAs newFrame.origin target.origin = false) :
    lookupA (handleWindowFrameChanged env s wid newFrame (some tx) requested
      FrameChangeKind.resize ms).1.windows wid
        = some { w with frame_monotonic := newFrame } ∧
    lookupA (handleWindowFrameChanged env s wid newFrame (some tx) requested
      FrameChangeKind.resize ms).1.txStore wsid = none ∧
    (handleWindowFrameChanged env s wid newFrame (some tx) requested
      FrameChangeKind.resize ms).1.constraints = s.constraints ∧
    (handleWindowFrameChanged env s wid newFrame (some tx) requested
      FrameChangeKind.resize ms).2.1.events = [] ∧
    (handleWindowFrameChanged env s wid newFrame (some tx) requested
      FrameChangeKind.resize ms).2.2 = false := by
  have hcore := coreEval_triggered env s wid w wsid tx target newFrame requested
    FrameChangeKind.resize (mouseEffective env ms) hw hsys hmc hcs hprobe hrec hm
  have he : triggeredBranch env s wid newFrame FrameChangeKind.resize (some wsid)
      (some (wsid, target))
      = ({ (s.setFrame wid newFrame) with
            txStore := removeA (s.setFrame wid newFrame).txStore wsid },
         Output.empty, false) := by
    simp [triggeredBranch, hw, hnei, hsize, horig, WindowTxStore.remove]
  set s2 : Reactor := { (s.setFrame wid newFrame) with
    txStore := removeA (s.setFrame wid newFrame).txStore wsid } with hs2
  have hT := handleMouseUpIfNeeded_preserves s2 (mouseEffective env ms)
  simp only [handleWindowFrameChanged, hcore, he]
  refine ⟨?_, ?_, ?_, ?_, trivial⟩
  · rw [hT.1]
    simp [hs2, Reactor.setFrame, lookupA_updateA_self, hw]
  · rw [hT.2.1]
    simp [hs2, lookupA_removeA_self]
  · rw [hT.2.2.2.1]
    simp [hs2, Reactor.setFrame]
  · simp [Output.append, Output.empty, hT.2.2.2.2]

/-- Claim C3, witness for the amended statement at the concrete
intermediate resize 70x70 at origin (10,10) against target 50x50 at
origin (0,0). -/
theorem c3_intermediate_resize_commits_witness :
    lookupA (handleWindowFrameChanged envW reactorT widC (mkRect 10 10 70 70)
      (some 1) false FrameChangeKind.resize (some MouseState.up)).1.windows widC
        = some { winC with frame_monotonic := mkRect 10 10 70 70 } ∧
    lookupA (handleWindowFrameChanged envW reactorT widC (mkRect 10 10 70 70)
      (some 1) false FrameChangeKind.resize (some MouseState.up)).1.txStore 1 = none ∧
    (handleWindowFrameChanged envW reactorT widC (mkRect 10 10 70 70)
      (some 1) false FrameChangeKind.resize (some MouseState.up)).1.constraints
        = reactorT.constraints ∧
    (handleWindowFrameChanged envW reactorT widC (mkRect 10 10 70 70)
      (some 1) false FrameChangeKind.resize (some MouseState.up)).2.1.events = [] ∧
    (handleWindowFrameChanged envW reactorT widC (mkRect 10 10 70 70)
      (some 1) false FrameChangeKind.resize (some MouseState.up)).2.2 = false :=
  c3_intermediate_resize_commits envW reactorT widC winC 1 1 (mkRect 0 0 50 50)
    (mkRect 10 10 70 70) false (some MouseState.up)
    rfl rfl rfl (by simp [envW])
    (by intro p hp; simp [reactorT, reactorC, lookupA] at hp)
    rfl (by with_unfolding_all decide) (by with_unfolding_all decide)
    (by with_unfolding_all decide) (by with_unfolding_all decide)

/-- Claim C4: if a pending transaction with a target frame exists for
window W, a raw external notification (W, F2, last_seen=None,
mouse=Down) arriving before the transaction resolves transitions W into
an Active drag session — with W's pre-change frame placement as the
origin space and last_frame updated to F2 — and clears the pending
transaction, leaving no transaction record for W's external id.
Scenario preconditions: the window is known and not suppressed,
requested is false, no drag is live yet, F2 differs from the stored
frame beyond tolerance, the old or new placement is active, and no
other window's region overlaps F2. -/
theorem c4_mouse_down_external_starts_drag (env : Env) (s : Reactor)
    (wid : WindowId) (w : WindowState) (wsid : WindowServerId)
    (rtx : TransactionId) (tgt newFrame : CGRect) (ck : FrameChangeKind)
    (ms : Option MouseState)
    (hw : lookupA s.windows wid = some w)
    (hsys : w.info.sys_id = some wsid)
    (hmc : env.missionControlActive = false)
    (hcs : wsid ∉ env.changingScreens)
    (hrec : lookupA s.txStore wsid = some { txid := rtx, target := some tgt })
    (hms : mouseEffective env ms = some MouseState.down)
    (hdrag : s.dragState = DragState.inactive)
    (hold : CGRect.sameAs w.frame_monotonic newFrame = false)
    (hactive :
      ((env.bestSpace w.frame_monotonic (some wsid)).map env.isSpaceActive).getD false
          = true ∨
        ((env.bestSpace newFrame (some wsid)).map env.isSpaceActive).getD false = true)
    (hswap : env.swapTarget wid newFrame = none) :
    (handleWindowFrameChanged env s wid newFrame none false ck ms).1.dragState
      = DragState.active
          { window := wid, last_frame := newFrame
            origin_space := env.bestSpace w.frame_monotonic (some wsid)
            settled_space := none, layout_dirty := false } ∧
    lookupA (handleWindowFrameChanged env s wid newFrame none false ck ms).1.txStore
      wsid = none ∧
    lookupA (handleWindowFrameChanged env s wid newFrame none false ck ms).1.windows
      wid = some { w with frame_monotonic := newFrame } := by
  have hcore := coreEval_noTxid env s wid w wsid newFrame ck
    (mouseEffective env ms) hw hsys hmc hcs
  have hcond :
      (!((env.bestSpace w.frame_monotonic (some wsid)).map env.isSpaceActive).getD false
        && !((env.bestSpace newFrame (some wsid)).map env.isSpaceActive).getD false)
        = false := by
    rcases hactive with h | h <;> simp [h]
  refine ⟨?_, ?_, ?_⟩ <;>
  · simp only [handleWindowFrameChanged, hcore]
    by_cases hres : CGSize.sameAs w.frame_monotonic.size newFrame.size = true <;>
      by_cases hsp : (activeSpaceForWindow env newFrame (some wsid)).isSome = true <;>
        simp [genuineExternal, handleMouseUpIfNeeded, hcond, hw, hold, hms,
          Reactor.setFrame, ensureActiveDrag, updateActiveDrag, maybeSwapOnDrag,
          hdrag, hsys, hswap, hres, hsp, WindowTxStore.remove,
          lookupA_updateA_self, lookupA_removeA_self]

/-- An environment whose placement oracle reports an active space 5 for
every frame. -/
def envA : Env :=
  { envW with bestSpace := fun _ _ => some 5, isSpaceActive := fun _ => true }

/-- Claim C4, witness: at the concrete reactor `reactorT` (pending
transaction txid 1 with target 50x50) a raw mouse-down notification for
frame 80x80 starts an Active drag of the window and purges the
transaction record. -/
theorem c4_mouse_down_external_starts_drag_witness :
    (handleWindowFrameChanged envA reactorT widC (mkRect 0 0 80 80) none false
      FrameChangeKind.move (some MouseState.down)).1.dragState
      = DragState.active
          { window := widC, last_frame := mkRect 0 0 80 80
            origin_space := some 5, settled_space := none, layout_dirty := false } ∧
    lookupA (handleWindowFrameChanged envA reactorT widC (mkRect 0 0 80 80) none false
      FrameChangeKind.move (some MouseState.down)).1.txStore 1 = none ∧
    lookupA (handleWindowFrameChanged envA reactorT widC (mkRect 0 0 80 80) none false
      FrameChangeKind.move (some MouseState.down)).1.windows widC
      = some { winC with frame_monotonic := mkRect 0 0 80 80 } :=
  c4_mouse_down_external_starts_drag envA reactorT widC winC 1 1
    (mkRect 0 0 50 50) (mkRect 0 0 80 80) FrameChangeKind.move
    (some MouseState.down) rfl rfl rfl (by simp [envA, envW]) rfl rfl rfl
    (by with_unfolding_all decide) (Or.inl rfl) rfl

/-- Claim C5: if a pending transaction T with target frame F exists for
window W, a notification (W, F, last_seen=T) whose frame matches the
target within the floating-point tolerance commits F into the window's
frame_monotonic (writing it exactly when the stored frame differed
beyond tolerance), removes the pending transaction record for W's
external id, and emits no layout event.  Branch preconditions of the
decision procedure: the window is known and not suppressed, no
registered constraint probe carries T, and the effective mouse state is
not Down (the drag override would fire first). -/
theorem c5_exact_match_commits (env : Env) (s : Reactor) (wid : WindowId)
    (w : WindowState) (wsid : WindowServerId) (tx : TransactionId)
    (target newFrame : CGRect) (requested : Bool) (ck : FrameChangeKind)
    (ms : Option MouseState)
    (hw : lookupA s.windows wid = some w)
    (hsys : w.info.sys_id = some wsid)
    (hmc : env.missionControlActive = false)
    (hcs : wsid ∉ env.changingScreens)
    (hprobe : ∀ p, lookupA s.constraintProbes wid = some p → p.txid ≠ tx)
    (hrec : lookupA s.txStore wsid = some { txid := tx, target := some target })
    (hm : mouseEffective env ms ≠ some MouseState.down)
    (hmatch : CGRect.sameAs newFrame target = true) :
    (∃ w2, lookupA
        (handleWindowFrameChanged env s wid newFrame (some tx) requested ck ms).1.windows
        wid = some w2 ∧
      CGRect.sameAs w2.frame_monotonic newFrame = true ∧
      (CGRect.sameAs w.frame_monotonic newFrame = false →
        w2.frame_monotonic = newFrame)) ∧
    lookupA
      (handleWindowFrameChanged env s wid newFrame (some tx) requested ck ms).1.txStore
      wsid = none ∧
    (handleWindowFrameChanged env s wid newFrame (some tx) requested ck ms).2.1.events
      = [] := by
  have hcore := coreEval_triggered env s wid w wsid tx target newFrame requested ck
    (mouseEffective env ms) hw hsys hmc hcs hprobe hrec hm
  have htrig : ∃ s2 : Reactor,
      triggeredBranch env s wid newFrame ck (some wsid) (some (wsid, target))
        = (s2, Output.empty, false) ∧
      (∃ w2, lookupA s2.windows wid = some w2 ∧
        CGRect.sameAs w2.frame_monotonic newFrame = true ∧
        (CGRect.sameAs w.frame_monotonic newFrame = false →
          w2.frame_monotonic = newFrame)) ∧
      lookupA s2.txStore wsid = none := by
    by_cases hold : CGRect.sameAs w.frame_monotonic newFrame = true
    · refine ⟨{ s with txStore := removeA s.txStore wsid }, ?_, ⟨w, ?_, hold, ?_⟩, ?_⟩
      · simp [triggeredBranch, hw, hmatch, hold, WindowTxStore.remove]
      · simpa using hw
      · intro hcontra
        rw [hold] at hcontra
        cases hcontra
      · simp [lookupA_removeA_self]
    · have holdf : CGRect.sameAs w.frame_monotonic newFrame = false :=
        Bool.eq_false_iff.mpr hold
      refine ⟨{ (s.setFrame wid newFrame) with
          txStore := removeA (s.setFrame wid newFrame).txStore wsid }, ?_,
        ⟨{ w with frame_monotonic := newFrame }, ?_, ?_, fun _ => rfl⟩, ?_⟩
      · simp [triggeredBranch, hw, hmatch, holdf, WindowTxStore.remove]
      · simp [Reactor.setFrame, lookupA_updateA_self, hw]
      · exact sameAs_refl newFrame
      · simp [lookupA_removeA_self]
  obtain ⟨s2, he, hwin, htx⟩ := htrig
  have hT := handleMouseUpIfNeeded_preserves s2 (mouseEffective env ms)
  simp only [handleWindowFrameChanged, hcore, he]
  refine ⟨?_, ?_, ?_⟩
  · rw [hT.1]
    exact hwin
  · rw [hT.2.1]
    exact htx
  · simp [Output.append, Output.empty, hT.2.2.2.2]

/-- Claim C5, witness at a concrete reactor with a pending transaction
(txid 1, target 50x50) and a notification that matches the target. -/
theorem c5_exact_match_commits_witness :
    (∃ w2, lookupA (handleWindowFrameChanged envW reactorT widC (mkRect 0 0 50 50)
        (some 1) false FrameChangeKind.move (some MouseState.up)).1.windows widC
          = some w2 ∧
      CGRect.sameAs w2.frame_monotonic (mkRect 0 0 50 50) = true ∧
      (CGRect.sameAs winC.frame_monotonic (mkRect 0 0 50 50) = false →
        w2.frame_monotonic = mkRect 0 0 50 50)) ∧
    lookupA (handleWindowFrameChanged envW reactorT widC (mkRect 0 0 50 50)
      (some 1) false FrameChangeKind.move (some MouseState.up)).1.txStore 1 = none ∧
    (handleWindowFrameChanged envW reactorT widC (mkRect 0 0 50 50)
      (some 1) false FrameChangeKind.move (some MouseState.up)).2.1.events = [] :=
  c5_exact_match_commits envW reactorT widC winC 1 1 (mkRect 0 0 50 50)
    (mkRect 0 0 50 50) false FrameChangeKind.move (some MouseState.up)
    rfl rfl rfl (by simp [envW])
    (by intro p hp; simp [reactorT, reactorC, lookupA] at hp)
    rfl (by simp [mouseEffective]) (sameAs_refl (mkRect 0 0 50 50))

/-- Claim C10: the minimize/restore handlers are idempotent at the
public interface: `handle_window_minimized` on an already-minimized
window returns with the state unchanged and no layout event, and
`handle_window_deminiaturized` on a window that is not minimized does
the same. -/
theorem c10_minimize_restore_idempotent (env : Env) (s : Reactor) (wid : WindowId)
    (w : WindowState) (h : lookupA s.windows wid = some w) :
    (w.info.is_minimized = true → handleWindowMinimized s wid = (s, Output.empty)) ∧
    (w.info.is_minimized = false →
      handleWindowDeminiaturized env s wid = (s, Output.empty)) := by
  constructor
  · intro hm
    simp [handleWindowMinimized, h, hm]
  · intro hm
    simp [handleWindowDeminiaturized, h, hm]

/-- Claim C10, witness: at the concrete reactors `reactorMin` (window
minimized) and `reactorC` (window not minimized) both handlers are
no-ops. -/
theorem c10_minimize_restore_idempotent_witness :
    lookupA reactorMin.windows widC = some winMin ∧
    winMin.info.is_minimized = true ∧
    handleWindowMinimized reactorMin widC = (reactorMin, Output.empty) ∧
    lookupA reactorC.windows widC = some winC ∧
    winC.info.is_minimized = false ∧
    handleWindowDeminiaturized envW reactorC widC = (reactorC, Output.empty) := by
  have h1 := c10_minimize_restore_idempotent envW reactorMin widC winMin rfl
  have h2 := c10_minimize_restore_idempotent envW reactorC widC winC rfl
  exact ⟨rfl, rfl, h1.1 rfl, rfl, rfl, h2.2 rfl⟩

/-- An oracle environment for the idempotence counterexample: the old
frame sits on space 4, any other frame on space 5, both active, with a
workspace and a probe target configured so that a genuine external
space change starts a constraint probe. -/
def envD : Env :=
  { missionControlActive := false
    changingScreens := []
    mouseState := none
    bestSpace := fun fr _ => if fr = mkRect 0 0 100 100 then some 4 else some 5
    isSpaceActive := fun _ => true
    workspaceCommandSpace := none
    screens := []
    activeLayoutModeAt := fun _ => LayoutMode.traditional
    isWindowFloating := fun _ => false
    activeWorkspace := fun _ => some 9
    appKnown := fun _ => false
    swapTarget := fun _ _ => none
    probeTarget := fun _ _ => some (mkRect 0 0 10 10)
    computeManageability := fun _ _ _ _ => false }

/-- The sample reactor with no probe, no drag, and an empty transaction
store. -/
def reactorD : Reactor :=
  { reactorC with
    constraintProbes := []
    dragState := DragState.inactive
    txStore := [] }

/-- The state after the first delivery of the counterexample
notification. -/
def stateD1 : Reactor :=
  (handleWindowFrameChanged envD reactorD widC (mkRect 0 0 80 80) (some 1) false
    FrameChangeKind.move none).1

/-- Claim C8, counterexample to the unconditional statement: a genuine
external space change starts a constraint probe whose freshly issued
txid happens to equal the notification's last_seen txid (reachable
because `remove` restarts the per-window sequence), so the second
identical delivery resolves that probe — it mutates the constraints and
emits a `WindowAdded` layout event instead of being a no-op. -/
theorem c8_idempotent_counterexample :
    (handleWindowFrameChanged envD stateD1 widC (mkRect 0 0 80 80) (some 1) false
        FrameChangeKind.move none).1 ≠ stateD1 ∧
    (handleWindowFrameChanged envD stateD1 widC (mkRect 0 0 80 80) (some 1) false
        FrameChangeKind.move none).2.1.events ≠ [] := by
  constructor
  · with_unfolding_all decide
  · with_unfolding_all decide

/-- Claim C8 (corrected): delivering the same `(window, frame, txid)`
notification twice through `handle_window_frame_changed` yields the same
reactor state as delivering it once, and the second delivery produces no
layout event — PROVIDED the notification's last_seen txid does not
exceed the last txid recorded for the window's server id (the echo
discipline every real notification satisfies).  Without that proviso the
property fails: a probe started by the first delivery can reuse a txid
equal to last_seen (see the counterexample). -/
theorem c8_frame_changed_idempotent (env : Env) (s : Reactor) (wid : WindowId)
    (nf : CGRect) (lastSeen : Option TransactionId) (requested : Bool)
    (ck : FrameChangeKind) (ms : Option MouseState)
    (hecho : ∀ t, lastSeen = some t → ∀ w, lookupA s.windows wid = some w →
      ∀ wsid, w.info.sys_id = some wsid → t ≤ s.txStore.lastTxid wsid) :
    (handleWindowFrameChanged env
        (handleWindowFrameChanged env s wid nf lastSeen requested ck ms).1
        wid nf lastSeen requested ck ms).1
      = (handleWindowFrameChanged env s wid nf lastSeen requested ck ms).1 ∧
    (handleWindowFrameChanged env
        (handleWindowFrameChanged env s wid nf lastSeen requested ck ms).1
        wid nf lastSeen requested ck ms).2.1.events = [] := by
  have hm := core_second_noop env s wid nf lastSeen requested ck
    (mouseEffective env ms) hecho
  have hidem := handleMouseUpIfNeeded_idem
    (frameChangedCore env s wid nf lastSeen requested ck
      (mouseEffective env ms)).1 (mouseEffective env ms)
  constructor
  · simp only [handleWindowFrameChanged, hm, hidem]
  · simp only [handleWindowFrameChanged, hm, hidem]
    simp [Output.append, Output.empty]

/-- Claim C8, witness: a repeated external move notification without a
txid at the concrete reactor `reactorT` is idempotent. -/
theorem c8_frame_changed_idempotent_witness :
    (handleWindowFrameChanged envW
        (handleWindowFrameChanged envW reactorT widC (mkRect 0 0 80 80) none false
          FrameChangeKind.move none).1
        widC (mkRect 0 0 80 80) none false FrameChangeKind.move none).1
      = (handleWindowFrameChanged envW reactorT widC (mkRect 0 0 80 80) none false
          FrameChangeKind.move none).1 ∧
    (handleWindowFrameChanged envW
        (handleWindowFrameChanged envW reactorT widC (mkRect 0 0 80 80) none false
          FrameChangeKind.move none).1
        widC (mkRect 0 0 80 80) none false FrameChangeKind.move none).2.1.events
      = [] :=
  c8_frame_changed_idempotent envW reactorT widC (mkRect 0 0 80 80) none false
    FrameChangeKind.move none (fun t ht => nomatch ht)

end Rift
